import Mathlib

/-!
Verification of the Olympiac front end (error-tolerant parser and semantic
verifier) against its natural-language specification.

The definitions below are a shallow embedding of the Python sources:
  * `explorador.py`   — token categories and token records,
  * `nodo.py`         — AST nodes (`asaNode`),
  * `analizador_sintactico.py` — the recursive-descent `Parser`,
  * `symbol_table.py` — the scoped `SymbolTable`,
  * `verificador.py`  — the semantic `Verifier`.

The parser's mutable state (`self.pos`, `self.errors`) is modelled as an
explicit state record threaded through a small free monad whose primitive
actions are exactly the parser's primitive state mutations.  Recursive
productions are indexed by fuel (`Nat`); running out of fuel is `none`.
The state additionally records a trace of every assignment to the cursor
(`self.pos`), tagged with the program point that performed it, so that
claims about cursor movement can be stated faithfully.

String operations mirror Python's `str` methods: they are defined over the
character list of the string so that every definition evaluates inside the
kernel (Lean's built-in `String.toLower` and friends are well-founded and
do not reduce).
-/

namespace Olympiac

/-- Python `str.lower()` (`explorador` tokens are ASCII). -/
def strLower (s : String) : String := ⟨s.data.map Char.toLower⟩

/-- Python `str.startswith(pre)`. -/
def strStartsWith (s pre : String) : Bool := pre.data.isPrefixOf s.data

/-- Python `str.endswith(suf)`. -/
def strEndsWith (s suf : String) : Bool := suf.data.reverse.isPrefixOf s.data.reverse

/-- Python `s[:-1]` for a nonempty string (used on `"narrar("` etc.). -/
def strDropRight1 (s : String) : String := ⟨s.data.dropLast⟩

/-- Python `c in s` for a single character. -/
def strContainsChar (s : String) (c : Char) : Bool := s.data.contains c

/-- Python `str.isdigit()` (ASCII digits; empty string is not a digit string). -/
def isdigitStr (s : String) : Bool := !s.data.isEmpty && s.data.all Char.isDigit

/-- Python `str.strip()`. -/
def strTrim (s : String) : String :=
  ⟨((s.data.dropWhile Char.isWhitespace).reverse.dropWhile Char.isWhitespace).reverse⟩

/-- Token categories of `explorador.TipoToken`. -/
inductive TipoToken where
  | COMENTARIO
  | PALABRA_CLAVE
  | DECLARACION_ENTIDAD
  | TIPO_DATO_DOMINIO
  | ESTRUCTURA_CONTROL_FLUJO
  | INVOCACION_FUNCION
  | OPERADOR_ARITMETICO
  | OPERADOR_COMPARACION
  | OPERADOR_ESPECIAL
  | LITERAL_CADENA
  | NOMBRE_IDENTIFICADOR
  | NUMERO_ENTERO
  | NUMERO_DECIMAL
  | VALOR_BOOLEANO
  | SIMBOLO_PUNTUACION
  | RESULTADO_ADICIONAL
  | CONDICION_EMPATE
  | ESPACIOS_BLANCOS
  | TOKEN_NO_RECONOCIDO
deriving DecidableEq, Repr

/-- `TipoToken.name` (used in `expect`'s error messages). -/
def TipoToken.name : TipoToken → String
  | TipoToken.COMENTARIO => "COMENTARIO"
  | .PALABRA_CLAVE => "PALABRA_CLAVE"
  | .DECLARACION_ENTIDAD => "DECLARACION_ENTIDAD"
  | TipoToken.TIPO_DATO_DOMINIO => "TIPO_DATO_DOMINIO"
  | .ESTRUCTURA_CONTROL_FLUJO => "ESTRUCTURA_CONTROL_FLUJO"
  | .INVOCACION_FUNCION => "INVOCACION_FUNCION"
  | .OPERADOR_ARITMETICO => "OPERADOR_ARITMETICO"
  | .OPERADOR_COMPARACION => "OPERADOR_COMPARACION"
  | .OPERADOR_ESPECIAL => "OPERADOR_ESPECIAL"
  | .LITERAL_CADENA => "LITERAL_CADENA"
  | .NOMBRE_IDENTIFICADOR => "NOMBRE_IDENTIFICADOR"
  | .NUMERO_ENTERO => "NUMERO_ENTERO"
  | .NUMERO_DECIMAL => "NUMERO_DECIMAL"
  | .VALOR_BOOLEANO => "VALOR_BOOLEANO"
  | .SIMBOLO_PUNTUACION => "SIMBOLO_PUNTUACION"
  | .RESULTADO_ADICIONAL => "RESULTADO_ADICIONAL"
  | .CONDICION_EMPATE => "CONDICION_EMPATE"
  | .ESPACIOS_BLANCOS => "ESPACIOS_BLANCOS"
  | .TOKEN_NO_RECONOCIDO => "TOKEN_NO_RECONOCIDO"

/-- `explorador.TokenLexico` (the `informacion_adicional` field carries no
semantics for the parser or verifier and is omitted). -/
structure TokenLexico where
  tipo_token : TipoToken
  texto_original : String
  numero_linea : Nat
  posicion_columna : Nat
deriving DecidableEq, Repr

/-- One athlete tuple collected by the bulk load of `parse_lista_o_carga`. -/
structure CargaEntry where
  nombre : String
  estadisticas : List String
  deporte : String
  pais : String
deriving DecidableEq, Repr

/-- One syntax diagnostic of `Parser.errors` (`_report_error`): the dict
`{"mensaje": .., "linea": .., "columna": ..}`; `linea`/`columna` are `None`
when the error was reported against no token. -/
structure ErrorRec where
  mensaje : String
  linea : Option Nat
  columna : Option Nat
deriving DecidableEq, Repr

/-- Attribute values stored in `asaNode.atributos` (Python dict values:
strings, `None`, ints, lists, the bulk-load entry list, and the syntax-error
list attached to the root). -/
inductive AttrVal where
  | vstr : String → AttrVal
  | vopt : Option String → AttrVal
  | vline : Option Nat → AttrVal
  | vstats : List (Option String) → AttrVal
  | vargs : List String → AttrVal
  | ventries : List CargaEntry → AttrVal
  | verrors : List ErrorRec → AttrVal
deriving DecidableEq, Repr

/-- `nodo.ASTNode` (aliased `asaNode`): kind tag, content, attribute mapping
(ordered, as a Python dict preserves insertion order), children. -/
inductive asaNode where
  | mk : String → String → List (String × AttrVal) → List asaNode → asaNode
deriving Repr

def asaNode.tipo : asaNode → String
  | .mk t _ _ _ => t

def asaNode.contenido : asaNode → String
  | .mk _ c _ _ => c

def asaNode.atributos : asaNode → List (String × AttrVal)
  | .mk _ _ a _ => a

def asaNode.hijos : asaNode → List asaNode
  | .mk _ _ _ h => h

/-- Program points that assign to `self.pos` in `analizador_sintactico.py`:
`advance` (`self.pos += 1`), the skip step of `synchronize`'s anchor loop,
the drain loop of `synchronize` after the step bound is hit, and the
lookahead rollbacks (`self.pos = saved_pos` / `self.pos = start_pos`) in
`parse_lista_o_carga`. -/
inductive TraceTag where
  | adv
  | sync
  | drain
  | rollback
deriving DecidableEq, Repr

/-- The parser's mutable state: the frozen token list, the cursor,
the accumulated syntax diagnostics, and the trace of cursor assignments.
`Parser._error_keys` always equals the set of `(mensaje, linea, columna)`
triples of `Parser.errors` (the two are only ever updated together in
`_report_error`), so the dedup set is represented by `errors` itself. -/
structure PState where
  tokens : List TokenLexico
  pos : Nat
  errors : List ErrorRec
  trace : List (TraceTag × Nat)
deriving Repr

/-- Primitive state operations of the Python parser. -/
inductive Act : Type → Type where
  | peek : Act (Option TokenLexico)
  | peek2 : Act (Option TokenLexico)
  | getPos : Act Nat
  | getLen : Act Nat
  | advance : Act (Option TokenLexico)
  | syncStep : Act Unit
  | drainStep : Act Unit
  | rollback : Nat → Act Unit
  | report : String → Option TokenLexico → Act Unit

/-- Semantics of the primitives, mirroring the corresponding Python lines. -/
def runAct : {α : Type} → Act α → PState → α × PState
  | _, .peek, s => (s.tokens.get? s.pos, s)
  | _, .peek2, s => (s.tokens.get? (s.pos + 1), s)
  | _, .getPos, s => (s.pos, s)
  | _, .getLen, s => (s.tokens.length, s)
  | _, .advance, s =>
      match s.tokens.get? s.pos with
      | none => (none, s)
      | some t => (some t,
          { s with pos := s.pos + 1, trace := s.trace ++ [(.adv, s.pos + 1)] })
  | _, .syncStep, s =>
      ((), { s with pos := s.pos + 1, trace := s.trace ++ [(.sync, s.pos + 1)] })
  | _, .drainStep, s =>
      ((), { s with pos := s.pos + 1, trace := s.trace ++ [(.drain, s.pos + 1)] })
  | _, .rollback p, s =>
      ((), { s with pos := p, trace := s.trace ++ [(.rollback, p)] })
  | _, .report msg tok, s =>
      -- `_report_error` dedups on the key (mensaje, linea, columna)
      if (⟨msg, tok.map (·.numero_linea), tok.map (·.posicion_columna)⟩ : ErrorRec)
          ∈ s.errors then ((), s)
      else ((), { s with errors := s.errors ++
        [⟨msg, tok.map (·.numero_linea), tok.map (·.posicion_columna)⟩] })

/-- Free monad over `Act`; `timeout` marks fuel exhaustion of a recursive
production (the Python code would simply keep running). -/
inductive PM : Type → Type 1 where
  | pure {α : Type} : α → PM α
  | timeout {α : Type} : PM α
  | step {α β : Type} : Act α → (α → PM β) → PM β

def PM.bindM {α β : Type} : PM α → (α → PM β) → PM β
  | .pure a, f => f a
  | .timeout, _ => .timeout
  | .step a k, f => .step a fun x => (k x).bindM f

instance : Monad PM where
  pure := PM.pure
  bind := PM.bindM

def act {α : Type} (a : Act α) : PM α := .step a .pure

/-- Run a parser computation; `none` means some production ran out of fuel. -/
def runPM : {α : Type} → PM α → PState → Option (α × PState)
  | _, .pure a, s => some (a, s)
  | _, .timeout, _ => none
  | _, .step a k, s =>
      let r := runAct a s
      runPM (k r.1) r.2

/-- `Parser.peek`. -/
def peekM : PM (Option TokenLexico) := act .peek

/-- `Parser.advance`. -/
def advanceM : PM (Option TokenLexico) := act .advance

/-- `Parser._report_error`. -/
def report_error (msg : String) (tok : Option TokenLexico) : PM Unit :=
  act (.report msg tok)

def anchor_types : List TipoToken :=
  [.DECLARACION_ENTIDAD, .ESTRUCTURA_CONTROL_FLUJO, .PALABRA_CLAVE]

def closing_symbols : List String := ["\x7d", "]", ")"]

/-- `Parser.sync_tokens`. -/
def sync_tokens : List String :=
  ["deportista", "lista", "si", "repetir", "repetirhasta", "finrep",
   "finrephast", "endif", "sino", "narrar", "input", "finact", "fincarr",
   "finruti"]

/-- Drain loop at the end of `synchronize` (`while self.peek(): self.pos += 1`);
the counter is the number of remaining tokens, so the recursion mirrors the
Python loop exactly. -/
def drainLoop : Nat → PM Unit
  | 0 => pure ()
  | n + 1 => do
      let t ← peekM
      match t with
      | none => pure ()
      | some _ => do
          act Act.drainStep
          drainLoop n

def drain : PM Unit := do
  let p ← act Act.getPos
  let n ← act Act.getLen
  drainLoop (n - p)

/-- The anchor-scan loop of `Parser.synchronize` with its `max_steps` bound;
returns `true` when the bound was exhausted (`steps >= max_steps`). -/
def syncLoop (start_line : Nat) : Nat → PM Bool
  | 0 => pure true
  | n + 1 => do
      let t? ← peekM
      match t? with
      | none => pure false
      | some t =>
        if t.tipo_token ∈ anchor_types then pure false
        else if t.tipo_token = .INVOCACION_FUNCION ∧ t.numero_linea ≠ start_line then
          pure false
        else if t.tipo_token = .SIMBOLO_PUNTUACION ∧ t.texto_original ∈ closing_symbols then
          pure false
        else if strLower t.texto_original ∈ sync_tokens ∧ t.numero_linea ≠ start_line then
          pure false
        else do
          act Act.syncStep
          syncLoop start_line n

/-- `Parser.synchronize` (`max_steps = 500`; when the bound is hit every
remaining token is discarded). -/
def synchronize : PM Unit := do
  let t0? ← peekM
  match t0? with
  | none => pure ()
  | some t0 => do
      let exhausted ← syncLoop t0.numero_linea 500
      if exhausted then drain else pure ()

/-- `Parser.expect`: `tipo` is always passed at call sites, `texto` and
`mensaje` mirror the Python defaults (`None`, `"Token inesperado"`). -/
def expect (tipo : TipoToken) (texto : Option String) (mensaje : String) :
    PM (Option TokenLexico) := do
  let t? ← peekM
  match t? with
  | none => do
      report_error (mensaje ++ ": fin de archivo (EOF)") none
      pure none
  | some t =>
    if t.tipo_token ≠ tipo then do
      report_error (mensaje ++ ": se esperaba tipo " ++ tipo.name ++ " y llegó "
        ++ t.tipo_token.name ++ " (\x27" ++ t.texto_original ++ "\x27)") (some t)
      synchronize
      pure none
    else
      match texto with
      | some tx =>
        if strLower t.texto_original ≠ strLower tx then do
          report_error (mensaje ++ ": se esperaba \x27" ++ tx ++ "\x27 y llegó \x27"
            ++ t.texto_original ++ "\x27") (some t)
          synchronize
          pure none
        else advanceM
      | none => advanceM

/-- Build an attribute `linea` value from an optional token. -/
def lineaOf (t : Option TokenLexico) : Option Nat := t.map (·.numero_linea)

def textoOf (t : Option TokenLexico) : Option String := t.map (·.texto_original)

/-- Python `f"{x}"` on a string-or-None value. -/
def pyShow : Option String → String
  | some s => s
  | none => "None"

/-- `Parser.parse_deportista`. -/
def parse_deportista : PM asaNode := do
  let tok_decl ← expect .DECLARACION_ENTIDAD (some "Deportista") "Token inesperado"
  let nombre ← expect .NOMBRE_IDENTIFICADOR none "Token inesperado"
  let n1 ← expect .NUMERO_ENTERO none "Token inesperado"
  let n2 ← expect .NUMERO_ENTERO none "Token inesperado"
  let n3 ← expect .NUMERO_ENTERO none "Token inesperado"
  let est : List (Option String) := [textoOf n1, textoOf n2, textoOf n3]
  let deporte ← expect .NOMBRE_IDENTIFICADOR none "Token inesperado"
  let pais ← expect .NOMBRE_IDENTIFICADOR none "Token inesperado"
  match tok_decl with
  | none => do
      report_error "Declaración \x27Deportista\x27 inválida o incompleta" nombre
      pure (.mk "ErrorSintactico" "Deportista" [("linea", .vline (lineaOf nombre))] [])
  | some td =>
      let atributos : List (String × AttrVal) :=
        [("nombre", .vopt (textoOf nombre)),
         ("estadisticas", .vstats est),
         ("deporte", .vopt (textoOf deporte)),
         ("pais", .vopt (textoOf pais)),
         ("linea", .vline (some td.numero_linea))]
      if nombre = none ∨ deporte = none ∨ pais = none ∨ est.contains none then do
        report_error "Declaración \x27Deportista\x27 incompleta (faltan campos)" (some td)
        pure (.mk "ErrorSintactico" "DeportistaIncompleto" atributos [])
      else
        -- contenido = atributos["nombre"] (a present string in this branch)
        pure (.mk "Deportista" ((textoOf nombre).getD "") atributos [])

/-- The inner `for _ in range(3)` of the bulk load: consume three integer
tokens after an athlete name; on the first non-integer restore the cursor to
`start_pos` (`self.pos = start_pos`) and give up (fewer than 3 numbers makes
the caller break). -/
def cargaNums (start_pos : Nat) : PM (Option (String × String × String)) := do
  let p1 ← peekM
  match p1 with
  | some t1 =>
    if t1.tipo_token = .NUMERO_ENTERO then do
      let _ ← advanceM
      let p2 ← peekM
      match p2 with
      | some t2 =>
        if t2.tipo_token = .NUMERO_ENTERO then do
          let _ ← advanceM
          let p3 ← peekM
          match p3 with
          | some t3 =>
            if t3.tipo_token = .NUMERO_ENTERO then do
              let _ ← advanceM
              pure (some (t1.texto_original, t2.texto_original, t3.texto_original))
            else do
              act (Act.rollback start_pos)
              pure none
          | none => do
              act (Act.rollback start_pos)
              pure none
        else do
          act (Act.rollback start_pos)
          pure none
      | none => do
          act (Act.rollback start_pos)
          pure none
    else do
      act (Act.rollback start_pos)
      pure none
  | none => do
      act (Act.rollback start_pos)
      pure none

/-- The `while` loop of the bulk load in `parse_lista_o_carga`: zero or more
athlete tuples, stopping at the first non-identifier or failed tuple. -/
def cargaLoop : Nat → List CargaEntry → PM (List CargaEntry)
  | 0, _ => .timeout
  | fuel + 1, acc => do
      let p ← peekM
      match p with
      | some pt =>
        if pt.tipo_token = .NOMBRE_IDENTIFICADOR then do
          let start_pos ← act Act.getPos
          let _ ← advanceM  -- nombre
          let nums ← cargaNums start_pos
          match nums with
          | none => pure acc
          | some (a, b, c) => do
              let deporte ← expect .NOMBRE_IDENTIFICADOR none "Token inesperado"
              let pais ← expect .NOMBRE_IDENTIFICADOR none "Token inesperado"
              match deporte, pais with
              | some d, some pa =>
                  cargaLoop fuel
                    (acc ++ [⟨pt.texto_original, [a, b, c], d.texto_original, pa.texto_original⟩])
              | _, _ => pure acc
        else pure acc
      | none => pure acc

/-- The simple-declaration tail of `parse_lista_o_carga`
(`Lista Tipo Nombre`), entered at whatever cursor position the lookahead
left behind. -/
def lista_simple (tl : TokenLexico) : PM asaNode := do
  let p ← peekM
  let tipo ←
    match p with
    | some pt =>
      if pt.tipo_token = .DECLARACION_ENTIDAD ∧ strLower pt.texto_original = "deportista" then
        advanceM
      else expect .NOMBRE_IDENTIFICADOR none "Tipo de lista inválido"
    | none => expect .NOMBRE_IDENTIFICADOR none "Tipo de lista inválido"
  let nombre ← expect .NOMBRE_IDENTIFICADOR none "Nombre de lista faltante"
  let atributos : List (String × AttrVal) :=
    [("tipo", .vopt (textoOf tipo)),
     ("nombre", .vopt (textoOf nombre)),
     ("linea", .vline (some tl.numero_linea))]
  pure (.mk "Lista" ((textoOf nombre).getD "") atributos [])

/-- `Parser.parse_lista_o_carga`, with its bounded lookahead and the two
cursor-restoring assignments (`self.pos = saved_pos`).  Note that `saved_pos`
is recorded *before* consuming the `Deportista` token, so both restores put
the cursor back onto `Deportista` itself. -/
def parse_lista_o_carga (fuel : Nat) : PM asaNode := do
  let tok_lista ← expect .DECLARACION_ENTIDAD (some "Lista") "Token inesperado"
  match tok_lista with
  | none => pure (.mk "ErrorSintactico" "Lista" [("linea", .vline none)] [])
  | some tl => do
    let p ← peekM
    match p with
    | some pt =>
      if pt.tipo_token = .DECLARACION_ENTIDAD ∧ strLower pt.texto_original = "deportista" then do
        let saved_pos ← act Act.getPos
        let _ ← advanceM  -- consume 'Deportista'
        let p2 ← peekM
        match p2 with
        | some nt =>
          if nt.tipo_token = .NOMBRE_IDENTIFICADOR then do
            let _ ← advanceM  -- consume el nombre
            let p3 ← peekM
            let es_carga_masiva : Bool :=
              match p3 with
              | some t3 => t3.tipo_token = .NUMERO_ENTERO
              | none => false
            act (Act.rollback saved_pos)
            if es_carga_masiva then do
              let deportistas ← cargaLoop fuel []
              if deportistas ≠ [] then
                pure (.mk "CargaDeportistas" "Lista Deportista"
                  [("deportistas", .ventries deportistas),
                   ("linea", .vline (some tl.numero_linea))] [])
              else do
                act (Act.rollback saved_pos)
                lista_simple tl
            else lista_simple tl
          else lista_simple tl
        | none => lista_simple tl
      else lista_simple tl
    | none => lista_simple tl

/-- Argument loop of `parse_narrar`. -/
def narrarArgs : Nat → List String → PM (List String)
  | 0, _ => .timeout
  | fuel + 1, acc => do
      let p ← peekM
      match p with
      | none => pure acc
      | some pt =>
        if pt.texto_original = ")" then pure acc
        else if pt.tipo_token = .NOMBRE_IDENTIFICADOR then do
          let _ ← advanceM
          narrarArgs fuel (acc ++ [pt.texto_original])
        else do
          report_error "Argumento de narrar debe ser identificador (Nombre)" (some pt)
          let _ ← advanceM
          narrarArgs fuel acc

/-- Consume a closing `)` if present (shared tail of the invocation parsers). -/
def closeParen : PM Unit := do
  let p ← peekM
  match p with
  | some pt =>
    if pt.texto_original = ")" then do
      let _ ← advanceM
      pure ()
    else pure ()
  | none => pure ()

/-- `f"{tok.texto_original[:-1]}"` naming of an invocation node. -/
def invocName (tok : Option TokenLexico) (dflt : String) : String :=
  match tok with
  | some tk =>
    if strEndsWith tk.texto_original "(" then strDropRight1 tk.texto_original
    else tk.texto_original
  | none => dflt

/-- `Parser.parse_narrar`. -/
def parse_narrar (fuel : Nat) : PM asaNode := do
  let tok ← expect .INVOCACION_FUNCION none "Token inesperado"
  let args ← narrarArgs fuel []
  closeParen
  if args.length ≠ 1 then
    report_error ("narrar requiere exactamente 1 Nombre, se encontró "
      ++ toString args.length) tok
  else pure ()
  pure (.mk "Narrar" (invocName tok "narrar")
    [("args", .vargs args), ("linea", .vline (lineaOf tok))] [])

/-- Argument loop shared (textually duplicated in Python) by `parse_dirigir`
and `parse_invocacion_generica`: any token except `,` / `)`. -/
def invocArgs : Nat → List String → PM (List String)
  | 0, _ => .timeout
  | fuel + 1, acc => do
      let p ← peekM
      match p with
      | none => pure acc
      | some pt =>
        if pt.texto_original = ")" then pure acc
        else if pt.tipo_token = .SIMBOLO_PUNTUACION ∧ pt.texto_original = "," then do
          let _ ← advanceM
          invocArgs fuel acc
        else do
          let _ ← advanceM
          invocArgs fuel (acc ++ [pt.texto_original])

/-- `Parser.parse_dirigir` (`input(...)`). -/
def parse_dirigir (fuel : Nat) : PM asaNode := do
  let tok ← expect .INVOCACION_FUNCION none "Token inesperado"
  let args ← invocArgs fuel []
  closeParen
  pure (.mk "Dirigir" (invocName tok "input")
    [("args", .vargs args), ("linea", .vline (lineaOf tok))] [])

/-- `Parser.parse_invocacion_generica`. -/
def parse_invocacion_generica (fuel : Nat) : PM asaNode := do
  let tok ← expect .INVOCACION_FUNCION none "Token inesperado"
  let args ← invocArgs fuel []
  closeParen
  pure (.mk "Invocacion" (invocName tok "invocacion")
    [("args", .vargs args), ("linea", .vline (lineaOf tok))] [])

/-- `Parser.parse_resultado` (`"Resultado" Numero "-" Numero`). -/
def parse_resultado : PM asaNode := do
  let tok_res ← expect TipoToken.TIPO_DATO_DOMINIO (some "Resultado") "Se esperaba \x27Resultado\x27"
  let num1 ← expect .NUMERO_ENTERO none "Resultado requiere primer número"
  let _ ← expect .SIMBOLO_PUNTUACION (some "-") "Resultado requiere \x27-\x27 entre números"
  let num2 ← expect .NUMERO_ENTERO none "Resultado requiere segundo número"
  pure (.mk "Resultado" "Resultado"
    [("linea", .vline (lineaOf tok_res)),
     ("valores", .vstats [textoOf num1, textoOf num2])] [])

/-- `Parser.parse_resultado_extra` (`"listaRes"`). -/
def parse_resultado_extra : PM asaNode := do
  let tok ← expect .RESULTADO_ADICIONAL (some "listaRes") "Se esperaba \x27listaRes\x27"
  pure (.mk "ResultadoExtra" ((textoOf tok).getD "listaRes")
    [("linea", .vline (lineaOf tok))] [])

/-- `Parser.parse_empate` (`"empate"`). -/
def parse_empate : PM asaNode := do
  let tok ← expect .CONDICION_EMPATE (some "empate") "Se esperaba \x27empate\x27"
  pure (.mk "Empate" ((textoOf tok).getD "empate")
    [("linea", .vline (lineaOf tok))] [])

/-- The post-`Resultado` loop inside `parse_partido`: extra `listaRes`
results and a possibly duplicated `empate` marker. -/
def partidoExtras : Nat → Option asaNode → List asaNode →
    PM (Option asaNode × List asaNode)
  | 0, _, _ => .timeout
  | fuel + 1, empate_node, extras => do
      let p ← peekM
      match p with
      | none => pure (empate_node, extras)
      | some pt =>
        if strLower pt.texto_original ∈ ["listares", "empate"] then
          if pt.tipo_token = .RESULTADO_ADICIONAL then do
            let e ← parse_resultado_extra
            partidoExtras fuel empate_node (extras ++ [e])
          else if pt.tipo_token = .CONDICION_EMPATE then
            match empate_node with
            | none => do
                let e ← parse_empate
                partidoExtras fuel (some e) extras
            | some _ => do
                report_error "Empate duplicado en Partido" (some pt)
                partidoExtras fuel empate_node extras
          else pure (empate_node, extras)
        else pure (empate_node, extras)

/-- The post-`Resultado` loop of `parse_carrera` / `parse_rutina` /
`parse_combate` (textually triplicated in Python): extra `listaRes` nodes. -/
def listaResLoop : Nat → List asaNode → PM (List asaNode)
  | 0, _ => .timeout
  | fuel + 1, extras => do
      let p ← peekM
      match p with
      | some pt =>
        if strLower pt.texto_original = "listares" then do
          let e ← parse_resultado_extra
          listaResLoop fuel (extras ++ [e])
        else pure extras
      | none => pure extras

/-- The tail of `parse_partido` after its action loop: mandatory `finact`,
the required-`Resultado` check, and node construction. -/
def partidoTail (paisA paisB : Option TokenLexico)
    (r : List asaNode × Option asaNode × Option asaNode × List asaNode) :
    PM asaNode := do
  match r with
  | (acciones, empate_node, resultado_node, extras) =>
    let pc ← peekM
    match pc with
    | some pt =>
      if pt.tipo_token = .PALABRA_CLAVE ∧ strLower pt.texto_original = "finact" then do
        let _ ← advanceM
        pure ()
      else report_error "Se esperaba \x27finact\x27 al final de Partido" (some pt)
    | none => report_error "Se esperaba \x27finact\x27 al final de Partido" none
    match resultado_node with
    | none => do
        let pr ← peekM
        report_error "Partido requiere \x27Resultado\x27 antes de \x27finact\x27" pr
    | some _ => pure ()
    let atributos : List (String × AttrVal) :=
      [("paisA", .vopt (textoOf paisA)),
       ("paisB", .vopt (textoOf paisB)),
       ("linea", .vline (match paisA with
          | some a => some a.numero_linea
          | none => lineaOf paisB))]
    pure (.mk "Partido"
      (pyShow (textoOf paisA) ++ " vs " ++ pyShow (textoOf paisB)) atributos
      (acciones ++ empate_node.toList ++ resultado_node.toList ++ extras))

/-- The mutually recursive productions of `Parser`, bundled so that the
fuel-indexed family `parsersF` below is a single structural recursion on
`Nat` (each field of level `fuel + 1` calls fields of level `fuel`). -/
structure Parsers where
  comando : PM (Option asaNode)
  partido : PM asaNode
  partidoLoop : List asaNode → Option asaNode → Option asaNode → List asaNode →
    PM (List asaNode × Option asaNode × Option asaNode × List asaNode)
  carrera : PM asaNode
  carreraLoop : List asaNode → Option asaNode →
    PM (List asaNode × Option asaNode × List asaNode)
  rutina : PM asaNode
  rutinaLoop : List asaNode → Option asaNode →
    PM (List asaNode × Option asaNode × List asaNode)
  combate : PM asaNode
  combateLoop : List asaNode → Option asaNode →
    PM (List asaNode × Option asaNode × List asaNode)
  accion_stub : PM asaNode
  stubLoop : List asaNode → PM (List asaNode)
  condicional : PM asaNode
  condBody : List asaNode → PM (List asaNode)
  sinoBody : List asaNode → PM (List asaNode)
  condicion_expresion : PM asaNode
  repetir : PM asaNode
  repetirBody : List asaNode → PM (List asaNode)
  repetir_hasta : PM asaNode
  repetirHastaBody : List asaNode → PM (List asaNode)
  expression : PM asaNode
  comparison : PM asaNode
  comparisonLoop : asaNode → PM asaNode
  add : PM asaNode
  addLoop : asaNode → PM asaNode
  mul : PM asaNode
  mulLoop : asaNode → PM asaNode
  unary : PM asaNode
  primary : PM asaNode
  programLoop : List asaNode → PM (List asaNode)
  program : PM asaNode

/-- Fuel level 0: every production is out of fuel. -/
def timeoutParsers : Parsers where
  comando := .timeout
  partido := .timeout
  partidoLoop := fun _ _ _ _ => .timeout
  carrera := .timeout
  carreraLoop := fun _ _ => .timeout
  rutina := .timeout
  rutinaLoop := fun _ _ => .timeout
  combate := .timeout
  combateLoop := fun _ _ => .timeout
  accion_stub := .timeout
  stubLoop := fun _ => .timeout
  condicional := .timeout
  condBody := fun _ => .timeout
  sinoBody := fun _ => .timeout
  condicion_expresion := .timeout
  repetir := .timeout
  repetirBody := fun _ => .timeout
  repetir_hasta := .timeout
  repetirHastaBody := fun _ => .timeout
  expression := .timeout
  comparison := .timeout
  comparisonLoop := fun _ => .timeout
  add := .timeout
  addLoop := fun _ => .timeout
  mul := .timeout
  mulLoop := fun _ => .timeout
  unary := .timeout
  primary := .timeout
  programLoop := fun _ => .timeout
  program := .timeout

/-- Tail of one iteration of the `parse_program` loop: a produced command
node is appended and the loop continues; a `None` stops the loop. -/
def programLoopTail (p : Parsers) (acc : List asaNode) (nodo : Option asaNode) :
    PM (List asaNode) :=
  match nodo with
  | some nd => p.programLoop (acc ++ [nd])
  | none => PM.pure acc

/-- One fuel level of the parser: every production of
`analizador_sintactico.Parser`, with recursive calls going through `p`
(the previous fuel level) and bounded helper loops taking `fuel`.
Where Python writes `tok = self.advance()` directly after a successful
`peek`, the peeked token is used (`advance` returns exactly that token). -/
def mkParsers (fuel : Nat) (p : Parsers) : Parsers where
  comando := do
    let t? ← peekM
    match t? with
    | none => pure none
    | some t =>
      let txt := strLower t.texto_original
      -- Comentario
      if t.tipo_token = TipoToken.COMENTARIO then do
        let _ ← advanceM
        pure (some (.mk "Comentario" t.texto_original
          [("linea", .vline (some t.numero_linea))] []))
      -- Declaraciones
      else if t.tipo_token = .DECLARACION_ENTIDAD ∧ txt = "deportista" then do
        let n ← parse_deportista
        pure (some n)
      else if t.tipo_token = .DECLARACION_ENTIDAD ∧ txt = "lista" then do
        let n ← parse_lista_o_carga fuel
        pure (some n)
      -- Control de flujo
      else if t.tipo_token = .ESTRUCTURA_CONTROL_FLUJO ∧ txt = "si" then do
        let n ← p.condicional
        pure (some n)
      else if t.tipo_token = .ESTRUCTURA_CONTROL_FLUJO ∧ txt = "repetir" then do
        let n ← p.repetir
        pure (some n)
      else if t.tipo_token = .ESTRUCTURA_CONTROL_FLUJO ∧ txt = "repetirhasta" then do
        let n ← p.repetir_hasta
        pure (some n)
      else if t.tipo_token = .ESTRUCTURA_CONTROL_FLUJO
          ∧ txt ∈ ["finrep", "finrephast", "endif"] then do
        let _ ← advanceM
        pure (some (.mk "Cierre" t.texto_original
          [("linea", .vline (some t.numero_linea))] []))
      -- Invocaciones (the 'comparar' branch calls the same generic parser)
      else if t.tipo_token = .INVOCACION_FUNCION ∧ strStartsWith txt "narrar" then do
        let n ← parse_narrar fuel
        pure (some n)
      else if t.tipo_token = .INVOCACION_FUNCION ∧ strStartsWith txt "input" then do
        let n ← parse_dirigir fuel
        pure (some n)
      else if t.tipo_token = .INVOCACION_FUNCION then do
        let n ← parse_invocacion_generica fuel
        pure (some n)
      -- Palabras clave de competencia
      else if t.tipo_token = .PALABRA_CLAVE ∧ txt = "finact" then do
        let _ ← advanceM
        pure (some (.mk "FinAct" t.texto_original
          [("linea", .vline (some t.numero_linea))] []))
      else if t.tipo_token = .PALABRA_CLAVE ∧ txt = "fincarr" then do
        let _ ← advanceM
        pure (some (.mk "FinCarr" t.texto_original
          [("linea", .vline (some t.numero_linea))] []))
      else if t.tipo_token = .PALABRA_CLAVE ∧ txt = "finruti" then do
        let _ ← advanceM
        pure (some (.mk "FinRuti" t.texto_original
          [("linea", .vline (some t.numero_linea))] []))
      else if t.tipo_token = .PALABRA_CLAVE ∧ txt = "fincomb" then do
        let _ ← advanceM
        pure (some (.mk "FinComb" t.texto_original
          [("linea", .vline (some t.numero_linea))] []))
      else if t.tipo_token = .PALABRA_CLAVE ∧ txt = "iniciocarrera" then do
        let n ← p.carrera
        pure (some n)
      else if t.tipo_token = .PALABRA_CLAVE ∧ txt = "iniciorutina" then do
        let n ← p.rutina
        pure (some n)
      else if t.tipo_token = .PALABRA_CLAVE ∧ txt = "iniciocombate" then do
        let n ← p.combate
        pure (some n)
      else if t.tipo_token = .PALABRA_CLAVE
          ∧ txt ∈ ["preparacion", "ejecutar", "correr", "finprep"] then do
        let _ ← advanceM
        pure (some (.mk "Clave" t.texto_original
          [("linea", .vline (some t.numero_linea))] []))
      else if t.tipo_token = .PALABRA_CLAVE then do
        let n ← p.accion_stub
        pure (some n)
      -- Resultado (exact, case-sensitive comparison in the dispatch)
      else if t.tipo_token = TipoToken.TIPO_DATO_DOMINIO ∧ t.texto_original = "Resultado" then do
        let n ← parse_resultado
        pure (some n)
      else if t.tipo_token = .RESULTADO_ADICIONAL then do
        let n ← parse_resultado_extra
        pure (some n)
      else if t.tipo_token = .CONDICION_EMPATE then do
        let n ← parse_empate
        pure (some n)
      else do
        -- Partido: Identificador 'vs' Identificador (bounded lookahead)
        let nxt ← act Act.peek2
        match nxt with
        | some nt =>
          if t.tipo_token = .NOMBRE_IDENTIFICADOR ∧ nt.tipo_token = .OPERADOR_ESPECIAL
              ∧ strLower nt.texto_original = "vs" then do
            let n ← p.partido
            pure (some n)
          else if t.tipo_token = .NOMBRE_IDENTIFICADOR then do
            let _ ← advanceM
            pure (some (.mk "Identificador" t.texto_original
              [("linea", .vline (some t.numero_linea))] []))
          else if t.tipo_token = .SIMBOLO_PUNTUACION then do
            let _ ← advanceM
            pure (some (.mk "Simbolo" t.texto_original
              [("linea", .vline (some t.numero_linea))] []))
          else do
            let _ ← advanceM
            report_error "Token fuera de producción Comando" (some t)
            pure (some (.mk "Unknown" t.texto_original
              [("linea", .vline (some t.numero_linea))] []))
        | none =>
          if t.tipo_token = .NOMBRE_IDENTIFICADOR then do
            let _ ← advanceM
            pure (some (.mk "Identificador" t.texto_original
              [("linea", .vline (some t.numero_linea))] []))
          else if t.tipo_token = .SIMBOLO_PUNTUACION then do
            let _ ← advanceM
            pure (some (.mk "Simbolo" t.texto_original
              [("linea", .vline (some t.numero_linea))] []))
          else do
            let _ ← advanceM
            report_error "Token fuera de producción Comando" (some t)
            pure (some (.mk "Unknown" t.texto_original
              [("linea", .vline (some t.numero_linea))] []))
  partido := do
    let paisA ← expect .NOMBRE_IDENTIFICADOR none "Partido requiere primer país"
    let _ ← expect .OPERADOR_ESPECIAL (some "vs") "Partido requiere \x27vs\x27 entre países"
    let paisB ← expect .NOMBRE_IDENTIFICADOR none "Partido requiere segundo país"
    let r ← p.partidoLoop [] none none []
    partidoTail paisA paisB r
  partidoLoop := fun acciones empate_node resultado_node extras => do
    let pk ← peekM
    match pk with
    | none => pure (acciones, empate_node, resultado_node, extras)
    | some pt =>
      let low := strLower pt.texto_original
      if pt.tipo_token = TipoToken.TIPO_DATO_DOMINIO ∧ low = "resultado" then do
        let rn ← parse_resultado
        let ex ← partidoExtras fuel empate_node extras
        pure (acciones, ex.1, some rn, ex.2)
      else if pt.tipo_token = .CONDICION_EMPATE ∧ low = "empate" then
        match empate_node with
        | none => do
            let e ← parse_empate
            p.partidoLoop acciones (some e) resultado_node extras
        | some _ => do
            report_error "Empate duplicado en Partido" (some pt)
            p.partidoLoop acciones empate_node resultado_node extras
      else if pt.tipo_token = .PALABRA_CLAVE ∧ low = "finact" then
        pure (acciones, empate_node, resultado_node, extras)
      else do
        let acc ← p.comando
        match acc with
        | some a => p.partidoLoop (acciones ++ [a]) empate_node resultado_node extras
        | none => pure (acciones, empate_node, resultado_node, extras)
  carrera := do
    let inicio ← expect .PALABRA_CLAVE (some "InicioCarrera") "Se esperaba \x27InicioCarrera\x27"
    let r ← p.carreraLoop [] none
    match r with
    | (acciones, resultado_node, extras) => do
      let pc ← peekM
      match pc with
      | some pt =>
        if pt.tipo_token = .PALABRA_CLAVE ∧ strLower pt.texto_original = "fincarr" then do
          let _ ← advanceM
          pure ()
        else report_error "Se esperaba \x27finCarr\x27 al final de Carrera" (some pt)
      | none => report_error "Se esperaba \x27finCarr\x27 al final de Carrera" none
      match resultado_node with
      | none => do
          let pr ← peekM
          report_error "Carrera requiere \x27Resultado\x27 antes de \x27finCarr\x27" pr
      | some _ => pure ()
      pure (.mk "Carrera" "InicioCarrera" [("linea", .vline (lineaOf inicio))]
        (acciones ++ resultado_node.toList ++ extras))
  carreraLoop := fun acciones resultado_node => do
    let pk ← peekM
    match pk with
    | none => pure (acciones, resultado_node, [])
    | some pt =>
      let low := strLower pt.texto_original
      if pt.tipo_token = TipoToken.TIPO_DATO_DOMINIO ∧ low = "resultado" then do
        let rn ← parse_resultado
        let extras ← listaResLoop fuel []
        pure (acciones, some rn, extras)
      else if pt.tipo_token = .PALABRA_CLAVE ∧ low = "fincarr" then
        pure (acciones, resultado_node, [])
      else do
        let acc ← p.comando
        match acc with
        | some a => p.carreraLoop (acciones ++ [a]) resultado_node
        | none => pure (acciones, resultado_node, [])
  rutina := do
    let inicio ← expect .PALABRA_CLAVE (some "InicioRutina") "Se esperaba \x27InicioRutina\x27"
    let r ← p.rutinaLoop [] none
    match r with
    | (acciones, resultado_node, extras) => do
      let pc ← peekM
      match pc with
      | some pt =>
        if pt.tipo_token = .PALABRA_CLAVE ∧ strLower pt.texto_original = "finruti" then do
          let _ ← advanceM
          pure ()
        else report_error "Se esperaba \x27finRuti\x27 al final de Rutina" (some pt)
      | none => report_error "Se esperaba \x27finRuti\x27 al final de Rutina" none
      match resultado_node with
      | none => do
          let pr ← peekM
          report_error "Rutina requiere \x27Resultado\x27 antes de \x27finRuti\x27" pr
      | some _ => pure ()
      pure (.mk "Rutina" "InicioRutina" [("linea", .vline (lineaOf inicio))]
        (acciones ++ resultado_node.toList ++ extras))
  rutinaLoop := fun acciones resultado_node => do
    let pk ← peekM
    match pk with
    | none => pure (acciones, resultado_node, [])
    | some pt =>
      let low := strLower pt.texto_original
      if pt.tipo_token = TipoToken.TIPO_DATO_DOMINIO ∧ low = "resultado" then do
        let rn ← parse_resultado
        let extras ← listaResLoop fuel []
        pure (acciones, some rn, extras)
      else if pt.tipo_token = .PALABRA_CLAVE ∧ low = "finruti" then
        pure (acciones, resultado_node, [])
      else do
        let acc ← p.comando
        match acc with
        | some a => p.rutinaLoop (acciones ++ [a]) resultado_node
        | none => pure (acciones, resultado_node, [])
  combate := do
    let inicio ← expect .PALABRA_CLAVE (some "InicioCombate") "Se esperaba \x27InicioCombate\x27"
    let r ← p.combateLoop [] none
    match r with
    | (acciones, resultado_node, extras) => do
      let pc ← peekM
      match pc with
      | some pt =>
        if pt.tipo_token = .PALABRA_CLAVE ∧ strLower pt.texto_original = "fincomb" then do
          let _ ← advanceM
          pure ()
        else report_error "Se esperaba \x27finComb\x27 al final de Combate" (some pt)
      | none => report_error "Se esperaba \x27finComb\x27 al final de Combate" none
      match resultado_node with
      | none => do
          let pr ← peekM
          report_error "Combate requiere \x27Resultado\x27 antes de \x27finComb\x27" pr
      | some _ => pure ()
      pure (.mk "Combate" "InicioCombate" [("linea", .vline (lineaOf inicio))]
        (acciones ++ resultado_node.toList ++ extras))
  combateLoop := fun acciones resultado_node => do
    let pk ← peekM
    match pk with
    | none => pure (acciones, resultado_node, [])
    | some pt =>
      let low := strLower pt.texto_original
      if pt.tipo_token = TipoToken.TIPO_DATO_DOMINIO ∧ low = "resultado" then do
        let rn ← parse_resultado
        let extras ← listaResLoop fuel []
        pure (acciones, some rn, extras)
      else if pt.tipo_token = .PALABRA_CLAVE ∧ low = "fincomb" then
        pure (acciones, resultado_node, [])
      else do
        let acc ← p.comando
        match acc with
        | some a => p.combateLoop (acciones ++ [a]) resultado_node
        | none => pure (acciones, resultado_node, [])
  accion_stub := do
    let inicio ← advanceM
    match inicio with
    | none => do
        report_error "AccionStub incompleta: token de inicio ausente" none
        pure (.mk "ErrorSintactico" "AccionStub" [("linea", .vline none)] [])
    | some ini => do
        let hijos ← p.stubLoop []
        pure (.mk "AccionStub" ini.texto_original
          [("linea", .vline (some ini.numero_linea))] hijos)
  stubLoop := fun acc => do
    let pk ← peekM
    match pk with
    | none => pure acc
    | some pt =>
      let low := strLower pt.texto_original
      if low ∈ ["finact", "fincarr", "finruti", "finprep"] then pure acc
      else if low ∈ ["resultado", "listares", "empate"] then pure acc
      else do
        let child ← p.comando
        match child with
        | some c => p.stubLoop (acc ++ [c])
        | none => pure acc
  condicional := do
    let si_tok ← expect .ESTRUCTURA_CONTROL_FLUJO (some "si") "Token inesperado"
    let condicion ← p.condicion_expresion
    let _ ← expect .ESTRUCTURA_CONTROL_FLUJO (some "entonces") "Falta \x27entonces\x27 en condicional"
    let _ ← expect .SIMBOLO_PUNTUACION (some "\x7b") "Falta \x27\x7b\x27 de apertura en condicional"
    let cuerpo ← p.condBody []
    let pk ← peekM
    let sino_bloque : Option (List asaNode) ←
      match pk with
      | some pt =>
        if strLower pt.texto_original = "sino" then do
          let _ ← advanceM
          let _ ← expect .SIMBOLO_PUNTUACION (some "\x7b") "Falta \x27\x7b\x27 después de \x27sino\x27"
          let sb ← p.sinoBody []
          let _ ← expect .SIMBOLO_PUNTUACION (some "\x7d") "Falta \x27\x7d\x27 de cierre en bloque \x27sino\x27"
          pure (some sb)
        else pure none
      | none => pure none
    let _ ← expect .SIMBOLO_PUNTUACION (some "\x7d") "Falta \x27\x7d\x27 de cierre en condicional principal"
    let _ ← expect .ESTRUCTURA_CONTROL_FLUJO (some "endif") "Falta \x27endif\x27 al final de condicional"
    let hijos := cuerpo ++
      (match sino_bloque with
       | some sb => if sb.isEmpty then [] else [asaNode.mk "Sino" "" [] sb]
       | none => [])
    pure (.mk "Condicional" "si"
      [("condicion", .vstr condicion.contenido),
       ("linea", .vline (lineaOf si_tok))] hijos)
  condBody := fun acc => do
    let pk ← peekM
    match pk with
    | none => pure acc
    | some pt =>
      if strLower pt.texto_original ∈ ["\x7d", "sino", "endif"] then pure acc
      else do
        let n ← p.comando
        match n with
        | some nd => p.condBody (acc ++ [nd])
        | none => pure acc
  sinoBody := fun acc => do
    let pk ← peekM
    match pk with
    | none => pure acc
    | some pt =>
      if strLower pt.texto_original ∈ ["\x7d", "endif"] then pure acc
      else do
        let n ← p.comando
        match n with
        | some nd => p.sinoBody (acc ++ [nd])
        | none => pure acc
  condicion_expresion := do
    let left ← p.expression
    let pk ← peekM
    match pk with
    | some op =>
      if op.tipo_token = .OPERADOR_COMPARACION then do
        let _ ← advanceM
        let right ← p.expression
        pure (.mk "Condicion"
          (left.contenido ++ " " ++ op.texto_original ++ " " ++ right.contenido) []
          [left, .mk "Op" op.texto_original [] [], right])
      else pure left
    | none => pure left
  repetir := do
    let _tok ← expect .ESTRUCTURA_CONTROL_FLUJO (some "Repetir") "Token inesperado"
    let _ ← expect .SIMBOLO_PUNTUACION (some "(") "Falta \x27(\x27 en Repetir"
    let count ← expect .NUMERO_ENTERO none "Repetir requiere un número entero"
    let _ ← expect .SIMBOLO_PUNTUACION (some ")") "Falta \x27)\x27 en Repetir"
    let _ ← expect .SIMBOLO_PUNTUACION (some "[") "Falta \x27[\x27 en bloque Repetir"
    let cuerpo ← p.repetirBody []
    let _ ← expect .SIMBOLO_PUNTUACION (some "]") "Falta \x27]\x27 en Repetir"
    let _ ← expect .ESTRUCTURA_CONTROL_FLUJO (some "FinRep") "Falta \x27FinRep\x27 después del bloque Repetir"
    pure (.mk "Repetir" ((textoOf count).getD "") [] cuerpo)
  repetirBody := fun acc => do
    let pk ← peekM
    match pk with
    | none => pure acc
    | some pt =>
      if strLower pt.texto_original ∈ ["finrep", "]"] then pure acc
      else do
        let n ← p.comando
        match n with
        | some nd => p.repetirBody (acc ++ [nd])
        | none => pure acc
  repetir_hasta := do
    let _tok ← expect .ESTRUCTURA_CONTROL_FLUJO (some "RepetirHasta") "Token inesperado"
    let _ ← expect .SIMBOLO_PUNTUACION (some "(") "Falta \x27(\x27 en RepetirHasta"
    let condicion ← p.condicion_expresion
    let _ ← expect .SIMBOLO_PUNTUACION (some ")") "Falta \x27)\x27 en RepetirHasta"
    let _ ← expect .SIMBOLO_PUNTUACION (some "[") "Falta \x27[\x27 en bloque RepetirHasta"
    let cuerpo ← p.repetirHastaBody []
    let _ ← expect .SIMBOLO_PUNTUACION (some "]") "Falta \x27]\x27 en RepetirHasta"
    let _ ← expect .ESTRUCTURA_CONTROL_FLUJO (some "FinRepHast") "Falta \x27FinRepHast\x27 en RepetirHasta"
    pure (.mk "RepetirHasta" condicion.contenido [] cuerpo)
  repetirHastaBody := fun acc => do
    let pk ← peekM
    match pk with
    | none => pure acc
    | some pt =>
      if strLower pt.texto_original ∈ ["finrephast", "]"] then pure acc
      else do
        let n ← p.comando
        match n with
        | some nd => p.repetirHastaBody (acc ++ [nd])
        | none => pure acc
  expression := p.comparison
  comparison := do
    let node ← p.add
    p.comparisonLoop node
  comparisonLoop := fun node => do
    let pk ← peekM
    match pk with
    | some op =>
      if op.tipo_token = .OPERADOR_COMPARACION then do
        let _ ← advanceM
        let right ← p.add
        p.comparisonLoop (.mk "BinaryOp" op.texto_original [] [node, right])
      else pure node
    | none => pure node
  add := do
    let node ← p.mul
    p.addLoop node
  addLoop := fun node => do
    let pk ← peekM
    match pk with
    | some op =>
      if op.tipo_token = .OPERADOR_ARITMETICO ∧ op.texto_original ∈ ["+", "-"] then do
        let _ ← advanceM
        let right ← p.mul
        p.addLoop (.mk "BinaryOp" op.texto_original [] [node, right])
      else pure node
    | none => pure node
  mul := do
    let node ← p.unary
    p.mulLoop node
  mulLoop := fun node => do
    let pk ← peekM
    match pk with
    | some op =>
      if op.tipo_token = .OPERADOR_ARITMETICO ∧ op.texto_original ∈ ["*", "/", "%"] then do
        let _ ← advanceM
        let right ← p.unary
        p.mulLoop (.mk "BinaryOp" op.texto_original [] [node, right])
      else pure node
    | none => pure node
  unary := do
    let pk ← peekM
    match pk with
    | some op =>
      if op.tipo_token = .OPERADOR_ARITMETICO ∧ op.texto_original ∈ ["+", "-"] then do
        let _ ← advanceM
        let node ← p.unary
        pure (.mk "UnaryOp" op.texto_original [] [node])
      else p.primary
    | none => p.primary
  primary := do
    let pk ← peekM
    match pk with
    | none => do
        report_error "Expresión incompleta: EOF" none
        pure (.mk "PrimaryUnknown" "" [("linea", .vline none)] [])
    | some pt =>
      if pt.tipo_token = .NUMERO_ENTERO then do
        let _ ← advanceM
        pure (.mk "Numero" pt.texto_original [("linea", .vline (some pt.numero_linea))] [])
      else if pt.tipo_token = .NOMBRE_IDENTIFICADOR then do
        let _ ← advanceM
        pure (.mk "Nombre" pt.texto_original [("linea", .vline (some pt.numero_linea))] [])
      else if pt.tipo_token = .INVOCACION_FUNCION then
        parse_invocacion_generica fuel
      else if pt.tipo_token = .SIMBOLO_PUNTUACION ∧ pt.texto_original = "(" then do
        let _ ← advanceM
        let node ← p.expression
        closeParen
        pure node
      else do
        -- fallback: tok = self.advance() (present, since peek succeeded)
        let tok ← advanceM
        match tok with
        | none => do
            report_error "Token inesperado en expresión primaria" none
            pure (.mk "PrimaryUnknown" "" [("linea", .vline none)] [])
        | some tk =>
            pure (.mk "PrimaryUnknown" tk.texto_original
              [("linea", .vline (some tk.numero_linea))] [])
  programLoop := fun acc => do
    let pk ← peekM
    match pk with
    | none => pure acc
    | some _ => do
        let nodo ← p.comando
        programLoopTail p acc nodo
  program := do
    let hijos ← p.programLoop []
    pure (.mk "Programa" "root" [] hijos)

/-- The fuel-indexed parser family. -/
def parsersF : Nat → Parsers
  | 0 => timeoutParsers
  | fuel + 1 => mkParsers fuel (parsersF fuel)

/-- `Parser.parse_program` at a given fuel. -/
def parse_program (fuel : Nat) : PM asaNode := (parsersF fuel).program

def initPState (tokens : List TokenLexico) : PState := ⟨tokens, 0, [], []⟩

/-- Run the whole parse: root node plus final parser state. -/
def runParser (fuel : Nat) (tokens : List TokenLexico) :
    Option (asaNode × PState) :=
  runPM (parse_program fuel) (initPState tokens)

/-- `parse_from_tokens`: attach the accumulated syntax diagnostics to the
root's attributes under `parser_errors`. -/
def parse_from_tokens (fuel : Nat) (tokens : List TokenLexico) : Option asaNode :=
  (runParser fuel tokens).map fun r =>
    match r.1 with
    | .mk t c a h => .mk t c (a ++ [("parser_errors", .verrors r.2.errors)]) h

/-! ## Symbol table (`symbol_table.py`) -/

/-- `symbol_table.SymbolEntry`. -/
structure SymbolEntry where
  name : String
  type : String
  defined_node : Option asaNode
  defined_line : Option Nat
  scope_level : Nat
deriving Repr

/-- `SymbolEntry.to_dict()` (drops the node reference). -/
structure EntryDict where
  name : String
  type : String
  defined_line : Option Nat
  scope_level : Nat
deriving DecidableEq, Repr

def SymbolEntry.to_dict (e : SymbolEntry) : EntryDict :=
  ⟨e.name, e.type, e.defined_line, e.scope_level⟩

/-- A scope is a Python dict name → entry, modelled as an insertion-ordered
association list (keys are unique because `declare` only inserts fresh ones). -/
def Scope := List (String × SymbolEntry)

/-- `declare`'s duplicate message. -/
def dupDeclMsg (name : String) (level : Nat) : String :=
  "Declaración duplicada: \x27" ++ name ++ "\x27 ya existe en el scope actual (nivel "
    ++ toString level ++ ")"

/-- `symbol_table.SymbolTable`; index 0 is the global scope. -/
structure SymbolTable where
  scopes : List (List (String × SymbolEntry))
deriving Repr

def SymbolTable.new : SymbolTable := ⟨[[]]⟩

def SymbolTable.current_level (t : SymbolTable) : Nat := t.scopes.length - 1

def SymbolTable.enter_scope (t : SymbolTable) : SymbolTable := ⟨t.scopes ++ [[]]⟩

def SymbolTable.exit_scope (t : SymbolTable) : SymbolTable :=
  if t.scopes.length > 1 then ⟨t.scopes.dropLast⟩ else t

/-- Python `name in scope`. -/
def scopeHas (sc : List (String × SymbolEntry)) (name : String) : Bool :=
  sc.any (·.1 == name)

/-- `SymbolTable.declare`: returns the updated table and the error message
(`some` iff the name already exists in the innermost scope).  The empty-stack
case is unreachable (the stack always contains the global scope); it is a
no-op here where Python would index `scopes[-1]`. -/
def SymbolTable.declare (t : SymbolTable) (name typ : String)
    (node : Option asaNode) (line : Option Nat) : SymbolTable × Option String :=
  match t.scopes.getLast? with
  | none => (t, none)
  | some scope =>
    if scopeHas scope name then
      (t, some (dupDeclMsg name t.current_level))
    else
      (⟨t.scopes.dropLast ++
          [scope ++ [(name, ⟨name, typ, node, line, t.current_level⟩)]]⟩, none)

/-- `SymbolTable.lookup`: innermost scope first. -/
def SymbolTable.lookup (t : SymbolTable) (name : String) : Option SymbolEntry :=
  t.scopes.reverse.findSome? fun sc => (sc.find? (·.1 == name)).map (·.2)

/-! ## Semantic verifier (`verificador.py`) -/

/-- `verificador.SemanticError`; `line` is an int or `None` in Python
(default `0`, or the node's possibly-`None` `linea` attribute). -/
structure SemanticError where
  message : String
  line : Option Nat
  column : Nat
  severity : String
deriving DecidableEq, Repr

/-- Decoration values (`Verifier.decorations` dict values). -/
inductive DecVal where
  | ds : String → DecVal
  | dn : Nat → DecVal
  | db : Bool → DecVal
  | dopt : Option String → DecVal
  | dlist : List String → DecVal
  | dvals : List (Option String) → DecVal
  | dref : Option EntryDict → DecVal
deriving DecidableEq, Repr

/-- The verifier's mutable state.  Decorations are keyed by the node's path
from the root (list of child indices): the AST is a tree without sharing, so
paths are in bijection with the Python `id(node)` keys.  Snapshot logging
(`self.snapshots`, wall-clock timestamps) and console printing are I/O and
are not modelled. -/
structure VState where
  table : SymbolTable
  errors : List SemanticError
  decorations : List (List Nat × List (String × DecVal))
  error_context_stack : List Bool
deriving Repr

/-- Python dict assignment `decorations[id(node)] = info`. -/
def decUpdate (m : List (List Nat × List (String × DecVal))) (k : List Nat)
    (v : List (String × DecVal)) : List (List Nat × List (String × DecVal)) :=
  if m.any (·.1 == k) then m.map (fun q => if q.1 == k then (k, v) else q)
  else m ++ [(k, v)]

def decLookup (s : VState) (k : List Nat) : Option (List (String × DecVal)) :=
  s.decorations.lookup k

/-- `Verifier._infer_type_from_node` as a pure read of the state (decoration
of the node's path, else `Numero`/`Nombre` fallbacks). -/
def inferFallback (s : VState) (node : asaNode) : String :=
  if node.tipo = "Numero" then "int"
  else if node.tipo = "Nombre" then
    match s.table.lookup node.contenido with
    | some entry => entry.type
    | none => "unknown"
  else "unknown"

def inferType (s : VState) (path : List Nat) (node : asaNode) : String :=
  match decLookup s path with
  | some dec =>
    match dec.lookup "tipo" with
    | some (.ds t) => t
    | some _ => "unknown"  -- non-string 'tipo' never occurs
    | none => inferFallback s node
  | none => inferFallback s node

/-- Primitive state operations of the verifier. -/
inductive VAct : Type → Type where
  | declare : String → String → Option asaNode → Option Nat → VAct (Option String)
  | lookup : String → VAct (Option SymbolEntry)
  | emit : SemanticError → VAct Unit
  | decorate : List Nat → List (String × DecVal) → VAct Unit
  | pushCtx : VAct Unit
  | popCtx : VAct Unit
  | inErrCtx : VAct Bool
  | getType : List Nat → asaNode → VAct String

def runVAct : {α : Type} → VAct α → VState → α × VState
  | _, .declare n t nd l, s =>
      let r := s.table.declare n t nd l
      (r.2, { s with table := r.1 })
  | _, .lookup n, s => (s.table.lookup n, s)
  | _, .emit e, s => ((), { s with errors := s.errors ++ [e] })
  | _, .decorate k v, s => ((), { s with decorations := decUpdate s.decorations k v })
  | _, .pushCtx, s => ((), { s with error_context_stack := s.error_context_stack ++ [true] })
  | _, .popCtx, s =>
      -- `if self.error_context_stack: self.error_context_stack.pop()`
      ((), { s with error_context_stack := s.error_context_stack.dropLast })
  | _, .inErrCtx, s => (s.error_context_stack.any id, s)
  | _, .getType p nd, s => (inferType s p nd, s)

/-- Free monad of the verifier.  `scopeBlock m k` is the wrapper discipline
of `Verifier._visit` for compound nodes: `enter_scope()`, run `m`,
`exit_scope()`, continue with `k`. -/
inductive VM : Type → Type 1 where
  | pure {α : Type} : α → VM α
  | timeout {α : Type} : VM α
  | step {α β : Type} : VAct α → (α → VM β) → VM β
  | scopeBlock {α β : Type} : VM α → (α → VM β) → VM β

def VM.bindM {α β : Type} : VM α → (α → VM β) → VM β
  | .pure a, f => f a
  | .timeout, _ => .timeout
  | .step a k, f => .step a fun x => (k x).bindM f
  | .scopeBlock m k, f => .scopeBlock m fun x => (k x).bindM f

instance : Monad VM where
  pure := VM.pure
  bind := VM.bindM

def vact {α : Type} (a : VAct α) : VM α := .step a .pure

def runVM : {α : Type} → VM α → VState → Option (α × VState)
  | _, .pure a, s => some (a, s)
  | _, .timeout, _ => none
  | _, .step a k, s =>
      let r := runVAct a s
      runVM (k r.1) r.2
  | _, .scopeBlock m k, s =>
      match runVM m { s with table := s.table.enter_scope } with
      | none => none
      | some (a, s1) => runVM (k a) { s1 with table := s1.table.exit_scope }

/-- The `[SEM]` prefixing of `Verifier._add_error`. -/
def semFormat (msg : String) : String :=
  if strStartsWith msg "[SEM]" then msg else "[SEM] " ++ msg

/-- Line extraction of `Verifier._add_error`: the node's `linea` attribute if
present (possibly `None`), else `0`. -/
def errLine : Option asaNode → Option Nat
  | some nd =>
    match nd.atributos.lookup "linea" with
    | some (.vline l) => l
    | some _ => some 0  -- non-line 'linea' value never occurs
    | none => some 0
  | none => some 0

/-- `Verifier._add_error`. -/
def add_error (msg : String) (node : Option asaNode) : VM Unit :=
  vact (.emit ⟨semFormat msg, errLine node, 0, "ERROR"⟩)

/-- `Verifier._identificador_no_declarado`. -/
def undeclMsg (nombre : String) : String :=
  "Identificador no declarado \x27" ++ nombre ++ "\x27 antes de su uso"

def identificador_no_declarado (nombre : String) (node : Option asaNode) : VM Unit :=
  add_error (undeclMsg nombre) node

/-- `Verifier._resolve_arg_type` (arguments are always strings here). -/
def resolve_arg_type (a : String) : VM String :=
  let s := strTrim a
  if (strStartsWith s "\x22" ∧ strEndsWith s "\x22")
      ∨ (strStartsWith s "\x27" ∧ strEndsWith s "\x27") then pure "string"
  else if isdigitStr s then pure "int"
  else do
    let e ← vact (.lookup s)
    match e with
    | some en => pure en.type
    | none => pure "unknown"

/-- Attribute readers mirroring `node.atributos.get(...)`. -/
def attrArgs (node : asaNode) : List String :=
  match node.atributos.lookup "args" with
  | some (.vargs l) => l
  | _ => []

def attrOptStr (node : asaNode) (key : String) : Option String :=
  match node.atributos.lookup key with
  | some (.vopt o) => o
  | _ => none

def attrLinea (node : asaNode) : Option Nat :=
  match node.atributos.lookup "linea" with
  | some (.vline l) => l
  | _ => some 0

def attrStats (node : asaNode) (dflt : List (Option String)) : List (Option String) :=
  match node.atributos.lookup "valores" with
  | some (.vstats l) => l
  | _ => dflt

/-- Python truthiness of a string-or-None value. -/
def truthy : Option String → Bool
  | some s => !s.isEmpty
  | none => false

/-- Argument scan of `_visit_narrar`: resolve each argument type in order,
reporting undeclared bare identifiers. -/
def narrarCheckArgs : List String → asaNode → VM (List String)
  | [], _ => pure []
  | a :: rest, node => do
      let t ← resolve_arg_type a
      if t = "unknown" ∧ ¬ strContainsChar a ' ' ∧ ¬ strStartsWith a "\x22"
          ∧ ¬ isdigitStr a then do
        let c ← vact .inErrCtx
        if c then pure () else identificador_no_declarado a (some node)
      else pure ()
      let ts ← narrarCheckArgs rest node
      pure (t :: ts)

def resolveArgTypes : List String → VM (List String)
  | [] => pure []
  | a :: rest => do
      let t ← resolve_arg_type a
      let ts ← resolveArgTypes rest
      pure (t :: ts)

/-- The `comparar` entity check of `_visit_invocacion`. -/
def compararChecks (node : asaNode) : Nat → List String → VM Unit
  | _, [] => pure ()
  | i, t :: rest => do
      if ¬ strStartsWith t "entity" then
        add_error ("Argumento " ++ toString (i + 1)
          ++ " de Comparar debe ser una entidad; encontrado \x27" ++ t ++ "\x27")
          (some node)
      else pure ()
      compararChecks node (i + 1) rest

/-- The undeclared-identifier scan of the generic branch of
`_visit_invocacion` (note: no whitespace check here, unlike `narrar`). -/
def genericUndeclChecks (node : asaNode) : List String → List String → VM Unit
  | a :: args, t :: ts => do
      if t = "unknown" ∧ ¬ strStartsWith a "\x22" ∧ ¬ isdigitStr a then do
        let c ← vact .inErrCtx
        if c then pure () else identificador_no_declarado a (some node)
      else pure ()
      genericUndeclChecks node args ts
  | _, _ => pure ()

/-- The `obj . method` special case of `_visit_identificador` (first block):
returns `true` when the node was handled as a method of a list-typed object. -/
def identMethodCheck1 (_node : asaNode) (parent : Option asaNode) (idx : Nat)
    (path : List Nat) : VM Bool :=
  match parent with
  | none => pure false
  | some par =>
    if idx > 0 then
      match par.hijos.get? (idx - 1) with
      | none => pure false
      | some prev =>
        if prev.tipo = "Simbolo" ∧ prev.contenido = "." ∧ idx > 1 then
          match par.hijos.get? (idx - 2) with
          | none => pure false
          | some obj =>
            if obj.tipo = "Identificador" then do
              let entry ← vact (.lookup obj.contenido)
              match entry with
              | some en =>
                if strStartsWith en.type "list" then do
                  vact (.decorate path
                    [("method_of", .ds obj.contenido), ("is_method", .db true)])
                  pure true
                else pure false
              | none => pure false
            else pure false
        else pure false
    else pure false

/-- The built-in method-name special case of `_visit_identificador`
(second block: `agregar`/`append`/`add`). -/
def identMethodCheck2 (name : String) (_node : asaNode) (parent : Option asaNode)
    (idx : Nat) (path : List Nat) : VM Bool :=
  if strLower name ∈ ["agregar", "append", "add"] then
    match parent with
    | none => pure false
    | some par =>
      if idx > 0 then
        match par.hijos.get? (idx - 1) with
        | none => pure false
        | some prev =>
          if prev.tipo = "Simbolo" ∧ prev.contenido = "." ∧ idx > 1 then
            match par.hijos.get? (idx - 2) with
            | none => pure false
            | some obj =>
              if obj.tipo = "Identificador" then do
                let entry ← vact (.lookup obj.contenido)
                match entry with
                | some _ => do
                    vact (.decorate path
                      [("method_of", .ds obj.contenido), ("is_method", .db true),
                       ("method_name", .ds name)])
                    pure true
                | none => pure false
              else pure false
          else pure false
      else pure false
  else pure false

/-- The incomplete-`Resultado` check shared by the `Partido`/`Carrera`/
`Rutina`/`Combate` visitors: the last `Resultado` child with a missing second
number. -/
def trailingResultado (node : asaNode) : Option asaNode :=
  (node.hijos.filter (fun c => c.tipo == "Resultado")).getLast?

def resultadoSecondMissing (r : asaNode) : Bool :=
  (attrStats r [none, none]).getD 1 none = none

/-- `for i, c in enumerate(node.hijos): self._visit(c, node, i)` — the child
traversal shared by `_default_visit` and the per-kind visitors, parameterized
by the (fuel-limited) recursive visit. -/
def kidsSeq (recur : asaNode → Option asaNode → Nat → List Nat → VM Unit) :
    List asaNode → asaNode → List Nat → Nat → VM Unit
  | [], _, _, _ => pure ()
  | c :: rest, parentNode, path, i => do
      recur c (some parentNode) i (path ++ [i])
      kidsSeq recur rest parentNode path (i + 1)

/-- `Verifier._visit_deportista`: declare the athlete in the current scope
(reporting a duplicate), then decorate. -/
def visit_deportista (node : asaNode) (path : List Nat) : VM Unit := do
  -- name = node.atributos.get('nombre', node.contenido)
  let name := match node.atributos.lookup "nombre" with
    | some (.vopt (some s)) => s
    | some (.vopt none) => "None"  -- a None name never occurs on a "Deportista" node
    | _ => node.contenido
  let err ← vact (.declare name "entity:Deportista" (some node) (attrLinea node))
  match err with
  | some e => add_error e (some node)
  | none => pure ()
  vact (.decorate path [("definicion", .ds name), ("tipo", .ds "entity:Deportista")])

/-- The tail of `_visit_binaryop` after both operands were visited: read the
inferred operand types, report `string + int`, compute the result type and
decorate. -/
def binaryopTail (node left right : asaNode) (path : List Nat) : VM Unit := do
  let lt ← vact (.getType (path ++ [0]) left)
  let rt ← vact (.getType (path ++ [1]) right)
  let op := node.contenido
  if op = "+" ∧ ((lt = "string" ∧ rt = "int") ∨ (lt = "int" ∧ rt = "string")) then
    add_error "No se puede sumar texto con número" (some node)
  else pure ()
  let res :=
    if lt = "int" ∧ rt = "int" ∧ op ∈ ["+", "-", "*", "/", "%"] then "int"
    else if lt = "string" ∧ rt = "string" ∧ op = "+" then "string"
    else "unknown"
  vact (.decorate path [("tipo", .ds res), ("op", .ds op),
    ("left", .ds lt), ("right", .ds rt)])

/-- `Verifier._visit_binaryop`: visit both operands first, then type the
node; fewer than two children falls back to the default traversal. -/
def visit_binaryop (recur : asaNode → Option asaNode → Nat → List Nat → VM Unit)
    (node : asaNode) (path : List Nat) : VM Unit :=
  match node.hijos with
  | left :: right :: _ => do
      recur left none 0 (path ++ [0])
      recur right none 0 (path ++ [1])
      binaryopTail node left right path
  | _ => kidsSeq recur node.hijos node path 0

/-- The per-kind dispatch of `Verifier._visit` (`getattr(self,
f"_visit_{node.tipo.lower()}")`) together with all `_visit_<kind>` method
bodies; `recur` performs the recursive `self._visit` calls. -/
def visitCoreAux (recur : asaNode → Option asaNode → Nat → List Nat → VM Unit)
    (node : asaNode) (parent : Option asaNode) (idx : Nat) (path : List Nat) :
    VM Unit :=
  let low := strLower node.tipo
  -- _visit_deportista
  if low = "deportista" then
    visit_deportista node path
  -- _visit_cargadeportistas
  else if low = "cargadeportistas" then do
    let cantidad := match node.atributos.lookup "deportistas" with
      | some (.ventries l) => l.length
      | _ => 0
    vact (.decorate path [("tipo", .ds "list:Deportista"), ("cantidad", .dn cantidad)])
    kidsSeq recur node.hijos node path 0
  -- _visit_lista
  else if low = "lista" then do
    let nombre := attrOptStr node "nombre"
    -- tipo = node.atributos.get('tipo') or 'unknown'
    let tipo := match node.atributos.lookup "tipo" with
      | some (.vopt (some t)) => if t.isEmpty then "unknown" else t
      | _ => "unknown"
    match nombre with
    | some nm =>
      if nm.isEmpty then pure ()
      else do
        let err ← vact (.declare nm ("list:" ++ tipo) (some node) (attrLinea node))
        match err with
        | some e => add_error e (some node)
        | none => pure ()
    | none => pure ()
    vact (.decorate path [("tipo", .ds ("list:" ++ tipo)), ("nombre", .dopt nombre)])
    kidsSeq recur node.hijos node path 0
  -- _visit_narrar
  else if low = "narrar" then do
    let args := attrArgs node
    let local_types ← narrarCheckArgs args node
    vact (.decorate path [("tipo", .ds "void"), ("args_types", .dlist local_types)])
    kidsSeq recur node.hijos node path 0
  -- _visit_dirigir (no child traversal in Python)
  else if low = "dirigir" then do
    let args := attrArgs node
    vact (.decorate path [("tipo", .ds "input"), ("args", .dlist args)])
  -- _visit_identificador
  else if low = "identificador" then do
    let name := node.contenido
    let h1 ← identMethodCheck1 node parent idx path
    if h1 then pure ()
    else do
      let h2 ← identMethodCheck2 name node parent idx path
      if h2 then pure ()
      else do
        let entry ← vact (.lookup name)
        match entry with
        | none => do
            let c ← vact .inErrCtx
            if c then pure () else identificador_no_declarado name (some node)
            vact (.decorate path [("ref", .dref none)])
        | some en => vact (.decorate path [("ref", .dref (some en.to_dict))])
  -- _visit_invocacion (builtins: comparar {2 args, ret int},
  -- narrar {any arity, ret void}, input {1 arg, ret void})
  else if low = "invocacion" then do
    let name := node.contenido
    let args := attrArgs node
    let lname := strLower name
    if lname ∈ ["comparar", "narrar", "input"] then do
      let expectedArity : Option Nat :=
        if lname = "comparar" then some 2
        else if lname = "input" then some 1
        else none
      let ret := if lname = "comparar" then "int" else "void"
      match expectedArity with
      | some k =>
        if args.length ≠ k then
          add_error ("Llamada a " ++ name ++ " con aridad incorrecta: esperado "
            ++ toString k ++ ", encontrado " ++ toString args.length) (some node)
        else pure ()
      | none => pure ()
      let arg_types ← resolveArgTypes args
      if lname = "comparar" then compararChecks node 0 arg_types else pure ()
      vact (.decorate path [("tipo", .ds ret), ("name", .ds name),
        ("args", .dlist args), ("arg_types", .dlist arg_types)])
      kidsSeq recur node.hijos node path 0
    else do
      let arg_types ← resolveArgTypes args
      genericUndeclChecks node args arg_types
      vact (.decorate path [("tipo", .ds "unknown_call"), ("name", .ds name),
        ("args", .dlist args), ("arg_types", .dlist arg_types)])
      kidsSeq recur node.hijos node path 0
  -- _visit_condicional (scope handling is in the wrapper)
  else if low = "condicional" then do
    vact (.decorate path [("tipo", .ds "condicional")])
    kidsSeq recur node.hijos node path 0
  -- _visit_repetir
  else if low = "repetir" then do
    vact (.decorate path [("tipo", .ds "repetir"), ("count", .ds node.contenido)])
    kidsSeq recur node.hijos node path 0
  -- _visit_repetirhasta
  else if low = "repetirhasta" then do
    vact (.decorate path [("tipo", .ds "repetir_hasta"), ("condicion", .ds node.contenido)])
    kidsSeq recur node.hijos node path 0
  -- _visit_binaryop
  else if low = "binaryop" then
    visit_binaryop recur node path
  -- _visit_numero
  else if low = "numero" then
    vact (.decorate path [("tipo", .ds "int"), ("valor", .ds node.contenido)])
  -- _visit_nombre
  else if low = "nombre" then do
    let entry ← vact (.lookup node.contenido)
    match entry with
    | some en =>
        vact (.decorate path [("tipo", .ds en.type), ("ref", .dref (some en.to_dict))])
    | none => do
        vact (.decorate path [("tipo", .ds "unknown"), ("ref", .dref none)])
        let c ← vact .inErrCtx
        if c then pure () else identificador_no_declarado node.contenido (some node)
  -- _visit_resultado
  else if low = "resultado" then do
    let valores := attrStats node []
    let completo ←
      match valores with
      | [v0, v1] => do
          if v0 = none then do
            add_error "Resultado incompleto: falta primer número" (some node)
          else pure ()
          if v1 = none then do
            add_error "Resultado incompleto: falta segundo número" (some node)
          else pure ()
          pure (v0.isSome && v1.isSome)
      | _ => do
          add_error "Resultado requiere dos números" (some node)
          pure false
    vact (.decorate path [("tipo", .ds "resultado"), ("valores", .dvals valores),
      ("completo", .db completo)])
  -- _visit_resultadoextra
  else if low = "resultadoextra" then
    vact (.decorate path [("tipo", .ds "resultado_extra")])
  -- _visit_empate
  else if low = "empate" then
    vact (.decorate path [("tipo", .ds "empate")])
  -- _visit_accionstub
  else if low = "accionstub" then do
    vact (.decorate path [("tipo", .ds "accion_stub"), ("nombre", .ds node.contenido)])
    kidsSeq recur node.hijos node path 0
  -- _visit_partido
  else if low = "partido" then do
    let paisA := attrOptStr node "paisA"
    let paisB := attrOptStr node "paisB"
    if ¬ truthy paisA ∨ ¬ truthy paisB then
      add_error "Partido requiere ambos países" (some node)
    else pure ()
    vact (.decorate path [("tipo", .ds "partido"), ("paisA", .dopt paisA),
      ("paisB", .dopt paisB)])
    kidsSeq recur node.hijos node path 0
    match trailingResultado node with
    | some r =>
      if resultadoSecondMissing r then
        add_error "Resultado en Partido antes de cierre está incompleto (segundo número faltante)" (some r)
      else pure ()
    | none => pure ()
  -- _visit_carrera
  else if low = "carrera" then do
    vact (.decorate path [("tipo", .ds "carrera")])
    kidsSeq recur node.hijos node path 0
    match trailingResultado node with
    | some r =>
      if resultadoSecondMissing r then
        add_error "Resultado en Carrera antes de cierre está incompleto (segundo número faltante)" (some r)
      else pure ()
    | none => pure ()
  -- _visit_rutina
  else if low = "rutina" then do
    vact (.decorate path [("tipo", .ds "rutina")])
    kidsSeq recur node.hijos node path 0
    match trailingResultado node with
    | some r =>
      if resultadoSecondMissing r then
        add_error "Resultado en Rutina antes de cierre está incompleto (segundo número faltante)" (some r)
      else pure ()
    | none => pure ()
  -- _visit_combate
  else if low = "combate" then do
    vact (.decorate path [("tipo", .ds "combate")])
    kidsSeq recur node.hijos node path 0
    match trailingResultado node with
    | some r =>
      if resultadoSecondMissing r then
        add_error "Resultado en Combate antes de cierre está incompleto (segundo número faltante)" (some r)
      else pure ()
    | none => pure ()
  -- no visitor: _default_visit
  else kidsSeq recur node.hijos node path 0

/-- `Verifier._visit`: the wrapper enters/exits a scope around compound
nodes, maintains the syntactic-error context stack around `ErrorSintactico`
nodes, and dispatches; fuel bounds the recursion depth. -/
def visitN : Nat → asaNode → Option asaNode → Nat → List Nat → VM Unit
  | 0, _, _, _, _ => .timeout
  | fuel + 1, node, parent, idx, path =>
    if node.tipo = "Condicional" ∨ node.tipo = "Repetir" ∨ node.tipo = "RepetirHasta" then
      VM.scopeBlock (visitCoreAux (visitN fuel) node parent idx path) VM.pure
    else if node.tipo = "ErrorSintactico" then do
      vact .pushCtx
      visitCoreAux (visitN fuel) node parent idx path
      vact .popCtx
    else
      visitCoreAux (visitN fuel) node parent idx path

def initVState : VState := ⟨SymbolTable.new, [], [], []⟩

/-- `Verifier.run`: fresh global scope, then visit the root. -/
def Verifier.run (fuel : Nat) (root : asaNode) : Option VState :=
  (runVM (visitN fuel root none 0 []) initVState).map (·.2)

/-! ## Parser state invariants: cursor trace and diagnostic deduplication -/

/-- The cursor value after a trace (starting from an initial position). -/
def lastVal : Nat → List (TraceTag × Nat) → Nat
  | p, [] => p
  | _, (_, v) :: rest => lastVal v rest

/-- Every consecutive cursor decrease in the trace is a rollback write
(the cursor-restoring assignments of `parse_lista_o_carga`). -/
def traceSteps : Nat → List (TraceTag × Nat) → Bool
  | _, [] => true
  | prev, (t, v) :: rest =>
      (decide (prev ≤ v) || decide (t = TraceTag.rollback)) && traceSteps v rest

/-- The literal reading of "the cursor only moves forward": the recorded
cursor values never decrease between consecutive steps. -/
def monoTrace : Nat → List (TraceTag × Nat) → Bool
  | _, [] => true
  | prev, (_, v) :: rest => decide (prev ≤ v) && monoTrace v rest

/-- Invariant carried through every parser computation: the trace only
decreases at rollback steps, tracks the cursor, and the diagnostics list has
no duplicate `(mensaje, linea, columna)` triple. -/
def PInv (s : PState) : Prop :=
  traceSteps 0 s.trace = true ∧ lastVal 0 s.trace = s.pos ∧ s.errors.Nodup

/-! ## Concrete inputs used by the claims -/

def tok (tp : TipoToken) (tx : String) (l c : Nat) : TokenLexico := ⟨tp, tx, l, c⟩

/-- Tokens of `A vs B empate empate` (a `Partido` with a duplicated tie
marker). -/
def c1Tokens : List TokenLexico :=
  [tok .NOMBRE_IDENTIFICADOR "A" 1 1, tok .OPERADOR_ESPECIAL "vs" 1 3,
   tok .NOMBRE_IDENTIFICADOR "B" 1 6, tok .CONDICION_EMPATE "empate" 1 8,
   tok .CONDICION_EMPATE "empate" 1 15]

/-- Tokens of `Lista Deportista X 1 2 3 Sport Country`. -/
def c2Tokens : List TokenLexico :=
  [tok .DECLARACION_ENTIDAD "Lista" 1 1, tok .DECLARACION_ENTIDAD "Deportista" 1 7,
   tok .NOMBRE_IDENTIFICADOR "X" 1 18, tok .NUMERO_ENTERO "1" 1 20,
   tok .NUMERO_ENTERO "2" 1 22, tok .NUMERO_ENTERO "3" 1 24,
   tok .NOMBRE_IDENTIFICADOR "Sport" 1 26, tok .NOMBRE_IDENTIFICADOR "Country" 1 32]

/-- Tokens of `Lista Deportista X` followed by end of stream. -/
def c2aTokens : List TokenLexico :=
  [tok .DECLARACION_ENTIDAD "Lista" 1 1, tok .DECLARACION_ENTIDAD "Deportista" 1 7,
   tok .NOMBRE_IDENTIFICADOR "X" 1 18]

/-- Tokens of `narrar(X)` then `Deportista X 1 2 3 Futbol P`. -/
def c7Tokens : List TokenLexico :=
  [tok .INVOCACION_FUNCION "narrar(" 1 1, tok .NOMBRE_IDENTIFICADOR "X" 1 8,
   tok .SIMBOLO_PUNTUACION ")" 1 9,
   tok .DECLARACION_ENTIDAD "Deportista" 2 1, tok .NOMBRE_IDENTIFICADOR "X" 2 12,
   tok .NUMERO_ENTERO "1" 2 14, tok .NUMERO_ENTERO "2" 2 16,
   tok .NUMERO_ENTERO "3" 2 18, tok .NOMBRE_IDENTIFICADOR "Futbol" 2 20,
   tok .NOMBRE_IDENTIFICADOR "P" 2 27]

/-- A complete athlete-declaration node as built by `parse_deportista`. -/
def depNode (name : String) (line : Nat) : asaNode :=
  .mk "Deportista" name
    [("nombre", .vopt (some name)),
     ("estadisticas", .vstats [some "1", some "2", some "3"]),
     ("deporte", .vopt (some "Futbol")),
     ("pais", .vopt (some "P")),
     ("linea", .vline (some line))] []

/-- Program declaring the same name twice in the global scope. -/
def progDupSame (name : String) : asaNode :=
  .mk "Programa" "root" [] [depNode name 1, depNode name 2]

/-- Program declaring a name globally and again inside a conditional body. -/
def progDupNested (name : String) : asaNode :=
  .mk "Programa" "root" []
    [depNode name 1,
     .mk "Condicional" "si" [("condicion", .vstr "c"), ("linea", .vline (some 2))]
       [depNode name 3]]

/-- A conditional whose body declares `y` (used for the scope-isolation
witness). -/
def condDemo : asaNode :=
  .mk "Condicional" "si" [("condicion", .vstr "c"), ("linea", .vline (some 1))]
    [depNode "y" 2]

/-- The `Empate` node produced for the first `empate` token of `c1Tokens`. -/
def empNode : asaNode := .mk "Empate" "empate" [("linea", .vline (some 1))] []

/-- State of the `parse_partido` loop right after the first `empate` was
consumed (cursor on the duplicated marker, no diagnostics yet). -/
def c1s4 : PState :=
  ⟨c1Tokens, 4, [], [(.adv, 1), (.adv, 2), (.adv, 3), (.adv, 4)]⟩

/-- State of the loop after the duplicate was reported once: from here every
iteration reports the same deduplicated diagnostic and leaves the state
unchanged without consuming a token. -/
def c1Stuck : PState :=
  ⟨c1Tokens, 4, [⟨"Empate duplicado en Partido", some 1, some 15⟩],
   [(.adv, 1), (.adv, 2), (.adv, 3), (.adv, 4)]⟩

/-- State at the entry of the `parse_partido` loop (`A vs B` consumed). -/
def c1s3 : PState :=
  ⟨c1Tokens, 3, [], [(.adv, 1), (.adv, 2), (.adv, 3)]⟩

/-- The symbol entry created by the first declaration of `progDupSame`. -/
def depEntry (name : String) : SymbolEntry :=
  ⟨name, "entity:Deportista", some (depNode name 1), some 1, 0⟩

/-- The decoration placed on every visited athlete node. -/
def decoDep (name : String) : List (String × DecVal) :=
  [("definicion", .ds name), ("tipo", .ds "entity:Deportista")]

/-- Verifier state after the first child of `progDupSame` was visited. -/
def dupS1 (name : String) : VState :=
  ⟨⟨[[(name, depEntry name)]]⟩, [], [([0], decoDep name)], []⟩

/-- Verifier state after both children of `progDupSame` were visited: the
table is unchanged by the rejected second declaration and exactly one
duplicate diagnostic was recorded. -/
def dupS2 (name : String) : VState :=
  ⟨⟨[[(name, depEntry name)]]⟩,
   [⟨semFormat (dupDeclMsg name 0), some 2, 0, "ERROR"⟩],
   [([0], decoDep name), ([1], decoDep name)], []⟩

def wTable : SymbolTable :=
  ⟨[[("a", ⟨"a", "entity:Deportista", none, some 1, 0⟩)]]⟩

/-- Left operand of the C6 witness: a name bound to a `string` symbol. -/
def bopL : asaNode := .mk "Nombre" "sv" [] []

/-- Right operand of the C6 witness: a numeric literal. -/
def bopR : asaNode := .mk "Numero" "5" [] []

/-- The seeded `string`-typed symbol for the C6 witness. -/
def bopEntry : SymbolEntry := ⟨"sv", "string", none, some 1, 0⟩

/-- Initial verifier state with `sv : string` in the global scope. -/
def bopInit : VState := ⟨⟨[[("sv", bopEntry)]]⟩, [], [], []⟩

/-- State after visiting the left operand of the C6 witness. -/
def bopS1 : VState := ⟨⟨[[("sv", bopEntry)]]⟩, [],
  [([0], [("tipo", .ds "string"), ("ref", .dref (some bopEntry.to_dict))])], []⟩

/-- State after visiting both operands of the C6 witness. -/
def bopS2 : VState := ⟨⟨[[("sv", bopEntry)]]⟩, [],
  [([0], [("tipo", .ds "string"), ("ref", .dref (some bopEntry.to_dict))]),
   ([1], [("tipo", .ds "int"), ("valor", .ds "5")])], []⟩

/-! ## Theorems -/

theorem runPM_bind {α β : Type} (m : PM α) (f : α → PM β) (s : PState) :
    runPM (m.bindM f) s =
      match runPM m s with
      | none => none
      | some (a, s') => runPM (f a) s' := by
  induction m generalizing s with
  | pure a => rfl
  | timeout => rfl
  | step a k ih =>
      show runPM ((k (runAct a s).1).bindM f) (runAct a s).2 = _
      rw [ih]
      rfl

theorem runVM_bind {α β : Type} (m : VM α) (f : α → VM β) (s : VState) :
    runVM (m.bindM f) s =
      match runVM m s with
      | none => none
      | some (a, s') => runVM (f a) s' := by
  induction m generalizing s with
  | pure a => rfl
  | timeout => rfl
  | step a k ih =>
      show runVM ((k (runVAct a s).1).bindM f) (runVAct a s).2 = _
      rw [ih]
      rfl
  | scopeBlock m k ihm ihk =>
      show runVM (VM.scopeBlock m fun x => (k x).bindM f) s = _
      simp only [runVM]
      cases h : runVM m { s with table := s.table.enter_scope } with
      | none => rfl
      | some r =>
          cases r with
          | mk a s1 => exact ihk a f _

theorem lastVal_append (tr : List (TraceTag × Nat)) (p : Nat) (t : TraceTag) (v : Nat) :
    lastVal p (tr ++ [(t, v)]) = v := by
  induction tr generalizing p with
  | nil => rfl
  | cons hd tl ih => exact ih hd.2

theorem traceSteps_append (tr : List (TraceTag × Nat)) (p : Nat) (t : TraceTag) (v : Nat) :
    traceSteps p (tr ++ [(t, v)]) =
      (traceSteps p tr && (decide (lastVal p tr ≤ v) || decide (t = TraceTag.rollback))) := by
  induction tr generalizing p with
  | nil => simp [traceSteps, lastVal]
  | cons hd tl ih =>
      cases hd with
      | mk t0 v0 =>
          show ((decide (p ≤ v0) || decide (t0 = TraceTag.rollback))
                && traceSteps v0 (tl ++ [(t, v)]))
              = (((decide (p ≤ v0) || decide (t0 = TraceTag.rollback))
                  && traceSteps v0 tl)
                && (decide (lastVal v0 tl ≤ v) || decide (t = TraceTag.rollback)))
          rw [ih, Bool.and_assoc]

/-- A step that appends `(tag, s.pos + 1)` (advance / sync / drain) keeps the
invariant. -/
theorem PInv_stepForward (s : PState) (tag : TraceTag) (h : PInv s) :
    PInv { s with pos := s.pos + 1, trace := s.trace ++ [(tag, s.pos + 1)] } := by
  obtain ⟨h1, h2, h3⟩ := h
  refine ⟨?_, ?_, h3⟩
  · rw [traceSteps_append, h1, h2]
    simp
  · rw [lastVal_append]

/-- A rollback step keeps the invariant (any target position is allowed). -/
theorem PInv_rollback (s : PState) (p : Nat) (h : PInv s) :
    PInv { s with pos := p, trace := s.trace ++ [(TraceTag.rollback, p)] } := by
  obtain ⟨h1, h2, h3⟩ := h
  refine ⟨?_, ?_, h3⟩
  · rw [traceSteps_append, h1]
    simp
  · rw [lastVal_append]

/-- Every primitive parser action preserves the invariant. -/
theorem runAct_inv {α : Type} (a : Act α) (s : PState) (h : PInv s) :
    PInv (runAct a s).2 := by
  cases a with
  | peek => exact h
  | peek2 => exact h
  | getPos => exact h
  | getLen => exact h
  | advance =>
      simp only [runAct]
      cases hg : s.tokens.get? s.pos with
      | none => exact h
      | some t => exact PInv_stepForward s .adv h
  | syncStep => exact PInv_stepForward s .sync h
  | drainStep => exact PInv_stepForward s .drain h
  | rollback p => exact PInv_rollback s p h
  | report msg tok =>
      simp only [runAct]
      by_cases hc : (⟨msg, tok.map (·.numero_linea),
          tok.map (·.posicion_columna)⟩ : ErrorRec) ∈ s.errors
      · simpa [hc] using h
      · obtain ⟨h1, h2, h3⟩ := h
        refine ⟨by simpa [hc] using h1, by simpa [hc] using h2, ?_⟩
        simp only [hc, if_false]
        refine (List.nodup_append).mpr ⟨h3, List.nodup_singleton _, ?_⟩
        intro x hx hx1
        simp only [List.mem_singleton] at hx1
        exact hc (hx1 ▸ hx)

/-- Any parser computation preserves the invariant. -/
theorem runPM_inv {α : Type} (m : PM α) :
    ∀ (s : PState) (a : α) (s' : PState),
      runPM m s = some (a, s') → PInv s → PInv s' := by
  induction m with
  | pure x =>
      intro s a s' hrun h
      simp only [runPM, Option.some.injEq, Prod.mk.injEq] at hrun
      rw [← hrun.2]
      exact h
  | timeout =>
      intro s a s' hrun h
      simp [runPM] at hrun
  | step act k ih =>
      intro s a s' hrun h
      exact ih (runAct act s).1 (runAct act s).2 a s' hrun (runAct_inv act s h)

/-- The initial parser state satisfies the invariant. -/
theorem PInv_init (tokens : List TokenLexico) : PInv (initPState tokens) :=
  ⟨rfl, rfl, List.nodup_nil⟩

/-- The root returned by `parse_program` carries no attributes (the
diagnostics are attached afterwards by `parse_from_tokens`). -/
theorem parse_program_attrs (fuel : Nat) (tokens : List TokenLexico)
    (nd : asaNode) (st : PState) (h : runParser fuel tokens = some (nd, st)) :
    nd.atributos = [] := by
  cases fuel with
  | zero => simp [runParser, parse_program, parsersF, timeoutParsers, runPM] at h
  | succ f =>
      have h2 : runPM (PM.bindM ((parsersF f).programLoop [])
          (fun hijos => PM.pure (asaNode.mk "Programa" "root" [] hijos)))
          (initPState tokens) = some (nd, st) := h
      rw [runPM_bind] at h2
      cases hc : runPM ((parsersF f).programLoop []) (initPState tokens) with
      | none => rw [hc] at h2; simp at h2
      | some r =>
          rw [hc] at h2
          simp only [runPM, Option.some.injEq, Prod.mk.injEq] at h2
          rw [← h2.1]
          rfl

/-! ## Verifier scope-stack preservation -/

/-- No primitive verifier action changes the number of scopes, and none of
them touches any scope but the innermost (`declare` writes to `scopes[-1]`
only). -/
theorem runVAct_scopes {α : Type} (a : VAct α) (s : VState) :
    (runVAct a s).2.table.scopes.length = s.table.scopes.length ∧
      (runVAct a s).2.table.scopes.dropLast = s.table.scopes.dropLast := by
  cases a with
  | declare n t nd l =>
      simp only [runVAct, SymbolTable.declare]
      cases hg : s.table.scopes.getLast? with
      | none => exact ⟨rfl, rfl⟩
      | some sc =>
          have hne : s.table.scopes ≠ [] := by
            intro he
            rw [he] at hg
            simp at hg
          by_cases hd : scopeHas sc n
          · simp [hd]
          · simp only [hd, if_false]
            constructor
            · show (s.table.scopes.dropLast ++ [_]).length = _
              rw [List.length_append]
              have hpos : 0 < s.table.scopes.length :=
                List.length_pos.mpr hne
              simp only [List.length_dropLast, List.length_singleton]
              omega
            · show (s.table.scopes.dropLast ++ [_]).dropLast = _
              simp
  | lookup n => exact ⟨rfl, rfl⟩
  | emit e => exact ⟨rfl, rfl⟩
  | decorate k v => exact ⟨rfl, rfl⟩
  | pushCtx => exact ⟨rfl, rfl⟩
  | popCtx => exact ⟨rfl, rfl⟩
  | inErrCtx => exact ⟨rfl, rfl⟩
  | getType p nd => exact ⟨rfl, rfl⟩

/-- Any completed verifier computation preserves the scope-stack length and
every scope below the innermost; `scopeBlock`s restore the whole stack. -/
theorem runVM_scopes {α : Type} (m : VM α) :
    ∀ (s : VState) (a : α) (s' : VState),
      runVM m s = some (a, s') → s.table.scopes ≠ [] →
        s'.table.scopes.length = s.table.scopes.length ∧
          s'.table.scopes.dropLast = s.table.scopes.dropLast := by
  induction m with
  | pure x =>
      intro s a s' hrun hne
      simp only [runVM, Option.some.injEq, Prod.mk.injEq] at hrun
      rw [← hrun.2]
      exact ⟨rfl, rfl⟩
  | timeout =>
      intro s a s' hrun hne
      simp [runVM] at hrun
  | step act k ih =>
      intro s a s' hrun hne
      have hact := runVAct_scopes act s
      have hne2 : (runVAct act s).2.table.scopes ≠ [] := by
        intro he
        have : s.table.scopes.length = 0 := by
          rw [← hact.1, he]
          rfl
        exact hne (List.length_eq_zero.mp this)
      have := ih (runVAct act s).1 (runVAct act s).2 a s' hrun hne2
      exact ⟨this.1.trans hact.1, this.2.trans hact.2⟩
  | scopeBlock m k ihm ihk =>
      intro s a s' hrun hne
      simp only [runVM] at hrun
      cases hc : runVM m { s with table := s.table.enter_scope } with
      | none => rw [hc] at hrun; simp at hrun
      | some r =>
          rw [hc] at hrun
          cases r with
          | mk a1 s1 =>
            have hne1 : ({ s with table := s.table.enter_scope } : VState).table.scopes ≠ [] := by
              simp [SymbolTable.enter_scope]
            have hm := ihm _ _ _ hc hne1
            -- the inner run keeps the pushed stack: length n+1, below = s.scopes
            have hlen1 : s1.table.scopes.length = s.table.scopes.length + 1 := by
              simpa [SymbolTable.enter_scope] using hm.1
            have hdrop1 : s1.table.scopes.dropLast = s.table.scopes := by
              simpa [SymbolTable.enter_scope] using hm.2
            -- exit_scope pops the pushed scope
            have hexit : s1.table.exit_scope.scopes = s.table.scopes := by
              have hgt : s1.table.scopes.length > 1 := by
                rw [hlen1]
                have : s.table.scopes.length ≠ 0 := by
                  simpa using fun he => hne (List.length_eq_zero.mp he)
                omega
              simp only [SymbolTable.exit_scope, hgt, if_pos]
              exact hdrop1
            have hk := ihk a1 { s1 with table := s1.table.exit_scope } a s' hrun
              (by rw [show ({ s1 with table := s1.table.exit_scope } : VState).table.scopes
                    = s.table.scopes from hexit]; exact hne)
            constructor
            · rw [hk.1]
              show s1.table.exit_scope.scopes.length = _
              rw [hexit]
            · rw [hk.2]
              show s1.table.exit_scope.scopes.dropLast = _
              rw [hexit]

/-! ## C4: duplicate detection by `declare` and its surfacing as diagnostics -/

theorem vm_bind_def {α β : Type} (m : VM α) (f : α → VM β) : (m >>= f) = m.bindM f := rfl

theorem vm_pure_def {α : Type} (a : α) : (Pure.pure a : VM α) = VM.pure a := rfl

theorem runVM_vact {α : Type} (a : VAct α) (s : VState) :
    runVM (vact a) s = some ((runVAct a s).1, (runVAct a s).2) := rfl

theorem runVM_pure {α : Type} (a : α) (s : VState) : runVM (VM.pure a) s = some (a, s) := rfl

/-- `SymbolTable.declare` unfolded for a non-empty scope stack: the result is
decided by a membership test on the innermost scope alone. -/
theorem declare_split (t : SymbolTable) (name typ : String) (node : Option asaNode)
    (line : Option Nat) (h : t.scopes ≠ []) :
    t.declare name typ node line =
      if scopeHas (t.scopes.getLast h) name
      then (t, some (dupDeclMsg name t.current_level))
      else (⟨t.scopes.dropLast ++
              [(t.scopes.getLast h) ++
                [(name, ⟨name, typ, node, line, t.current_level⟩)]]⟩, none) := by
  have hg := List.getLast?_eq_getLast t.scopes h
  simp only [SymbolTable.declare, hg]

/-- Running `_visit_deportista` on a concrete athlete node: one `declare`,
an error appended exactly when it reports a duplicate, then the decoration. -/
theorem visit_deportista_run (name : String) (line : Nat) (path : List Nat) (s : VState) :
    runVM (visit_deportista (depNode name line) path) s =
      (match s.table.declare name "entity:Deportista" (some (depNode name line)) (some line) with
       | (t1, some e) => some ((), { s with
             table := t1
             errors := s.errors ++ [⟨semFormat e, some line, 0, "ERROR"⟩]
             decorations := decUpdate s.decorations path
               [("definicion", .ds name), ("tipo", .ds "entity:Deportista")] })
       | (t1, none) => some ((), { s with
             table := t1
             decorations := decUpdate s.decorations path
               [("definicion", .ds name), ("tipo", .ds "entity:Deportista")] })) := by
  cases hd : s.table.declare name "entity:Deportista" (some (depNode name line)) (some line) with
  | mk t1 e =>
      cases e with
      | some msg =>
          simp only [depNode] at hd
          simp [visit_deportista, vm_bind_def, vm_pure_def, runVM_bind, runVM_vact,
            runVM_pure, runVAct, hd, add_error, errLine, depNode, asaNode.atributos,
            attrLinea, List.lookup, runVM]
      | none =>
          simp only [depNode] at hd
          simp [visit_deportista, vm_bind_def, vm_pure_def, runVM_bind, runVM_vact,
            runVM_pure, runVAct, hd, add_error, errLine, depNode, asaNode.atributos,
            attrLinea, List.lookup, runVM]

/-- Redeclaring `name` in a scope that already holds it is rejected and
leaves the table unchanged. -/
theorem declare_dup_S1 (name : String) :
    (⟨[[(name, depEntry name)]]⟩ : SymbolTable).declare name "entity:Deportista"
        (some (depNode name 2)) (some 2) =
      (⟨[[(name, depEntry name)]]⟩, some (dupDeclMsg name 0)) := by
  rw [declare_split _ _ _ _ _ (by simp)]
  have hsc : scopeHas
      (([[(name, depEntry name)]] :
        List (List (String × SymbolEntry))).getLast (by simp)) name = true := by
    simp [scopeHas]
  rw [if_pos hsc]
  rfl

/-- Two same-scope declarations of the same name, whatever the name: exactly
one duplicate diagnostic, naming the clashing identifier and its scope level. -/
theorem dup_same_run (name : String) :
    (Verifier.run 10 (progDupSame name)).map (fun v => v.errors) =
      some [⟨semFormat (dupDeclMsg name 0), some 2, 0, "ERROR"⟩] := by
  have h1 : runVM (visit_deportista (depNode name 1) [0]) initVState =
      some ((), dupS1 name) := visit_deportista_run name 1 [0] initVState
  have h2 : runVM (visit_deportista (depNode name 2) [1]) (dupS1 name) =
      some ((), dupS2 name) := by
    rw [visit_deportista_run name 2 [1] (dupS1 name)]
    rw [show (dupS1 name).table = (⟨[[(name, depEntry name)]]⟩ : SymbolTable) from rfl]
    rw [declare_dup_S1 name]
    rfl
  show ((runVM (VM.bindM (visit_deportista (depNode name 1) [0])
      (fun _ => VM.bindM (visit_deportista (depNode name 2) [1])
        (fun _ => VM.pure ()))) initVState).map (fun r => r.2)).map (fun v => v.errors) =
    some [⟨semFormat (dupDeclMsg name 0), some 2, 0, "ERROR"⟩]
  rw [runVM_bind, h1]
  show ((runVM ((visit_deportista (depNode name 2) [1]).bindM
      (fun _ => VM.pure ())) (dupS1 name)).map (fun r => r.2)).map (fun v => v.errors) =
    some [⟨semFormat (dupDeclMsg name 0), some 2, 0, "ERROR"⟩]
  rw [runVM_bind, h2]
  rfl

/-- Redeclaring the same name inside a `Condicional` body lands in a fresh
inner scope and is accepted: no diagnostics at all. -/
theorem nested_rfl (name : String) :
    (Verifier.run 10 (progDupNested name)).map (fun v => v.errors) = some [] := rfl

/-! ## C1: the duplicated-`empate` loop never terminates -/

/-- At `c1Stuck` the `parse_partido` loop makes no progress: the duplicate
report is deduplicated, the cursor does not move, and the loop repeats with
the same state for every fuel. -/
theorem partidoLoop_stuck :
    ∀ m, runPM ((parsersF m).partidoLoop [] (some empNode) none []) c1Stuck = none
  | 0 => rfl
  | m + 1 => partidoLoop_stuck m

theorem partidoLoop_s4 :
    ∀ m, runPM ((parsersF m).partidoLoop [] (some empNode) none []) c1s4 = none
  | 0 => rfl
  | m + 1 => partidoLoop_stuck m

theorem partidoLoop_s3 :
    ∀ m, runPM ((parsersF m).partidoLoop [] none none []) c1s3 = none
  | 0 => rfl
  | m + 1 => partidoLoop_s4 m

theorem PM.bindM_assoc {α β γ : Type} (m : PM α) (f : α → PM β) (g : β → PM γ) :
    (m.bindM f).bindM g = m.bindM (fun x => (f x).bindM g) := by
  induction m with
  | pure a => rfl
  | timeout => rfl
  | step act k ih =>
      show PM.step act (fun x => ((k x).bindM f).bindM g) = PM.step act _
      exact congrArg (PM.step act) (funext fun x => ih x f)

theorem partidoLoop_s3_bind (m : Nat) {β : Type}
    (cont : List asaNode × Option asaNode × Option asaNode × List asaNode → PM β) :
    runPM (((parsersF m).partidoLoop [] none none []).bindM cont) c1s3 = none := by
  rw [runPM_bind, partidoLoop_s3 m]

theorem partido_c1 (m : Nat) {β : Type} (cont : asaNode → PM β) :
    runPM (((parsersF (m + 1)).partido).bindM cont) (initPState c1Tokens) = none := by
  show runPM ((((parsersF m).partidoLoop [] none none []).bindM
      (fun r => partidoTail (some (tok .NOMBRE_IDENTIFICADOR "A" 1 1))
        (some (tok .NOMBRE_IDENTIFICADOR "B" 1 6)) r)).bindM cont) c1s3 = none
  rw [PM.bindM_assoc]
  exact partidoLoop_s3_bind m _

theorem comando_c1 (m : Nat) {β : Type} (cont : Option asaNode → PM β) :
    runPM (((parsersF (m + 2)).comando).bindM cont) (initPState c1Tokens) = none := by
  show runPM ((((parsersF (m + 1)).partido).bindM
      (fun n => (PM.pure (some n) : PM (Option asaNode)))).bindM cont)
      (initPState c1Tokens) = none
  rw [PM.bindM_assoc]
  exact partido_c1 m _

theorem programLoop_c1 (m : Nat) {β : Type} (cont : List asaNode → PM β) :
    runPM (((parsersF (m + 3)).programLoop []).bindM cont) (initPState c1Tokens) = none := by
  show runPM ((((parsersF (m + 2)).comando).bindM
      (programLoopTail (parsersF (m + 2)) [])).bindM cont)
      (initPState c1Tokens) = none
  rw [PM.bindM_assoc]
  exact comando_c1 m _

theorem program_c1 (m : Nat) :
    runPM ((parsersF (m + 4)).program) (initPState c1Tokens) = none := by
  show runPM (((parsersF (m + 3)).programLoop []).bindM
      (fun hijos => (PM.pure (asaNode.mk "Programa" "root" [] hijos) : PM asaNode)))
      (initPState c1Tokens) = none
  exact programLoop_c1 m _

/-- C1: the claim says `parse_program` terminates within O(n) steps for
every finite token stream.  The code does not: on the stream
`A vs B empate empate` the duplicated-`empate` branch of `parse_partido`
reports a deduplicated diagnostic and loops without consuming a token, so no
amount of fuel completes the parse — `parse_from_tokens` yields `none`
(i.e. the Python parser runs forever). -/
theorem claim_C1_parse_nontermination :
    ∀ fuel, parse_from_tokens fuel c1Tokens = none
  | 0 => rfl
  | 1 => rfl
  | 2 => rfl
  | 3 => rfl
  | m + 4 => by
      simp only [parse_from_tokens, runParser, parse_program]
      rw [program_c1 m]
      rfl

/-- C2: disambiguation of `Lista Deportista ...`.  The first scenario of the
claim holds: `Lista Deportista X` at end of stream parses to a `Lista` node
named `X`.  The second fails: for `Lista Deportista X 1 2 3 Sport Country`
the code detects the bulk load, but restores the cursor to `saved_pos`,
which was recorded *before* `Deportista` was consumed, so the tuple loop
(which requires an identifier) sees `Deportista` and collects zero tuples;
the parser falls back to a simple `Lista` declaration and the athlete data
is parsed as stray commands — no `CargaDeportistas` node is ever produced. -/
theorem claim_C2_bulk_load_divergence :
    (runParser 50 c2aTokens).map
        (fun r => (r.1.hijos.map fun n => (n.tipo, attrOptStr n "nombre",
          attrOptStr n "tipo"), r.2.errors)) =
      some ([("Lista", some "X", some "Deportista")], []) ∧
    (runParser 50 c2Tokens).map
        (fun r => (r.1.hijos.map fun n => (n.tipo, attrOptStr n "nombre"),
          r.2.errors.length)) =
      some ([("Lista", some "X"), ("Unknown", none), ("Unknown", none),
        ("Unknown", none), ("Identificador", none), ("Identificador", none)], 3) ∧
    (runParser 50 c2Tokens).map
        (fun r => r.1.hijos.any fun n => n.tipo == "CargaDeportistas") =
      some false := by
  refine ⟨rfl, rfl, rfl⟩

/-- C7: parsing `narrar(X)` then `Deportista X 1 2 3 Futbol P` produces zero
syntax diagnostics, and verification produces exactly one semantic error:
identifier `X` used before being declared. -/
theorem claim_C7_use_before_decl :
    (runParser 50 c7Tokens).map (fun r => r.2.errors) = some [] ∧
    (runParser 50 c7Tokens).map
        (fun r => (Verifier.run 20 r.1).map (fun v => v.errors)) =
      some (some [⟨"[SEM] Identificador no declarado \x27X\x27 antes de su uso",
        some 1, 0, "ERROR"⟩]) := by
  exact ⟨rfl, rfl⟩

/-- C3 (counterexample): the claim that the cursor never decreases between
consecutive steps is false — parsing `Lista Deportista X` rolls the cursor
back from 3 to 1 during the bulk-load lookahead of `parse_lista_o_carga`. -/
theorem claim_C3_counterexample :
    (runParser 50 c2aTokens).map (fun r => monoTrace 0 r.2.trace) = some false := by
  rfl

/-- C3 (amended): the cursor only moves forward except at the bounded
lookahead rollbacks of `parse_lista_o_carga` (the only decreasing steps in
any completed run are rollback-tagged), and plain lookahead (`peek`) never
changes the parser state, in particular never consumes. -/
theorem claim_C3_cursor_monotone (fuel : Nat) (tokens : List TokenLexico)
    (nd : asaNode) (st : PState)
    (h : runParser fuel tokens = some (nd, st)) :
    traceSteps 0 st.trace = true ∧
      (∀ s : PState, runAct Act.peek s = (s.tokens.get? s.pos, s)) :=
  ⟨(runPM_inv (parse_program fuel) (initPState tokens) nd st h
      (PInv_init tokens)).1, fun _ => rfl⟩

theorem claim_C3_cursor_monotone_witness :
    traceSteps 0 [((TraceTag.adv : TraceTag), 1), (.adv, 2), (.adv, 3),
      (.rollback, 1), (.adv, 2), (.adv, 3)] = true :=
  (claim_C3_cursor_monotone 50 c2aTokens
    (asaNode.mk "Programa" "root" []
      [asaNode.mk "Lista" "X"
        [("tipo", .vopt (some "Deportista")), ("nombre", .vopt (some "X")),
         ("linea", .vline (some 1))] []])
    ⟨c2aTokens, 3, [], [(.adv, 1), (.adv, 2), (.adv, 3),
      (.rollback, 1), (.adv, 2), (.adv, 3)]⟩ rfl).1

/-- C8: the syntax-diagnostics list attached to the root after any completed
parse contains no two entries with the same (mensaje, linea, columna)
triple: `_report_error` dedups on exactly that key.  (An `ErrorRec` is that
triple, so `List.Nodup` states pairwise distinctness of the triples.) -/
theorem claim_C8_diagnostics_dedup (fuel : Nat) (tokens : List TokenLexico)
    (root : asaNode) (errs : List ErrorRec)
    (hp : parse_from_tokens fuel tokens = some root)
    (ha : root.atributos.lookup "parser_errors" = some (.verrors errs)) :
    errs.Nodup := by
  cases hr : runParser fuel tokens with
  | none => rw [parse_from_tokens, hr] at hp; simp at hp
  | some r =>
      have hattr : root.atributos
          = r.1.atributos ++ [("parser_errors", .verrors r.2.errors)] := by
        rw [parse_from_tokens, hr] at hp
        simp only [Option.map, Option.some.injEq] at hp
        rw [← hp]
        cases hnode : r.1 with
        | mk t c a hh => rfl
      rw [parse_program_attrs fuel tokens r.1 r.2 hr] at hattr
      rw [hattr] at ha
      simp only [List.nil_append, List.lookup] at ha
      rw [show (("parser_errors" == "parser_errors") = true) from rfl] at ha
      simp only [Option.some.injEq, AttrVal.verrors.injEq] at ha
      rw [← ha]
      exact (runPM_inv (parse_program fuel) (initPState tokens) r.1 r.2 hr
        (PInv_init tokens)).2.2

theorem claim_C8_diagnostics_dedup_witness :
    ([⟨"Token fuera de producción Comando", some 1, some 20⟩,
      ⟨"Token fuera de producción Comando", some 1, some 22⟩,
      ⟨"Token fuera de producción Comando", some 1, some 24⟩]
      : List ErrorRec).Nodup :=
  claim_C8_diagnostics_dedup 50 c2Tokens
    (match runParser 50 c2Tokens with
     | some r =>
        match r.1 with
        | .mk t c a h => .mk t c (a ++ [("parser_errors", .verrors r.2.errors)]) h
     | none => .mk "Programa" "root" [] [])
    [⟨"Token fuera de producción Comando", some 1, some 20⟩,
     ⟨"Token fuera de producción Comando", some 1, some 22⟩,
     ⟨"Token fuera de producción Comando", some 1, some 24⟩]
    rfl rfl

/-- C5: visiting a `Condicional`, `Repetir` or `RepetirHasta` node leaves
the symbol table exactly as it was (the wrapper enters a scope before the
children and exits it after, and declarations only ever touch the innermost
scope), so any name declared only inside the construct's body is unresolved
afterwards: `lookup` gives the same result as before the construct, in
particular `none` for names not previously declared. -/
theorem claim_C5_scope_isolation (fuel : Nat) (node : asaNode)
    (parent : Option asaNode) (idx : Nat) (path : List Nat) (s : VState)
    (a : Unit) (s' : VState)
    (hk : node.tipo = "Condicional" ∨ node.tipo = "Repetir" ∨ node.tipo = "RepetirHasta")
    (hne : s.table.scopes ≠ [])
    (hrun : runVM (visitN fuel node parent idx path) s = some (a, s')) :
    s'.table = s.table ∧ ∀ nm, s'.table.lookup nm = s.table.lookup nm := by
  cases fuel with
  | zero => simp [visitN, runVM] at hrun
  | succ f =>
      simp only [visitN] at hrun
      rw [if_pos hk] at hrun
      simp only [runVM] at hrun
      cases hc : runVM (visitCoreAux (visitN f) node parent idx path)
          { s with table := s.table.enter_scope } with
      | none => rw [hc] at hrun; simp at hrun
      | some r =>
          rw [hc] at hrun
          cases r with
          | mk a1 s1 =>
            have hm := runVM_scopes _ _ _ _ hc
              (by simp [SymbolTable.enter_scope])
            have hlen : s1.table.scopes.length = s.table.scopes.length + 1 := by
              simpa [SymbolTable.enter_scope] using hm.1
            have hdrop : s1.table.scopes.dropLast = s.table.scopes := by
              simpa [SymbolTable.enter_scope] using hm.2
            have hexit : s1.table.exit_scope = s.table := by
              have hgt : s1.table.scopes.length > 1 := by
                rw [hlen]
                have : 0 < s.table.scopes.length := List.length_pos.mpr hne
                omega
              rw [SymbolTable.exit_scope, if_pos hgt, hdrop]
            simp only [runVM, Option.some.injEq, Prod.mk.injEq] at hrun
            have hs' : s' = { s1 with table := s1.table.exit_scope } := hrun.2.symm
            rw [hs']
            refine ⟨by rw [show ({ s1 with table := s1.table.exit_scope }
              : VState).table = s1.table.exit_scope from rfl, hexit], fun nm => ?_⟩
            rw [show ({ s1 with table := s1.table.exit_scope }
              : VState).table = s1.table.exit_scope from rfl, hexit]

theorem claim_C5_scope_isolation_witness :
    (runVM (visitN 5 condDemo none 0 []) initVState).map
        (fun r => r.2.table.lookup "y") = some none := by
  obtain ⟨r, hr⟩ : ∃ r, runVM (visitN 5 condDemo none 0 []) initVState = some r :=
    ⟨_, rfl⟩
  have h5 := claim_C5_scope_isolation 5 condDemo none 0 [] initVState r.1 r.2
    (Or.inl rfl) (by simp [initVState, SymbolTable.new]) (by rw [hr])
  rw [hr]
  show some (r.2.table.lookup "y") = some none
  rw [h5.2 "y"]
  rfl

/-- C10: whenever `Verifier.run` completes, the final symbol table holds
exactly one scope — the global scope, level 0 — because every compound node
(`Condicional`, `Repetir`, `RepetirHasta`) pairs one `enter_scope` before
its children with one `exit_scope` after. -/
theorem claim_C10_balanced_scopes (fuel : Nat) (ast : asaNode) (vs : VState)
    (h : Verifier.run fuel ast = some vs) :
    vs.table.scopes.length = 1 ∧ vs.table.current_level = 0 := by
  rw [Verifier.run] at h
  cases hr : runVM (visitN fuel ast none 0 []) initVState with
  | none => rw [hr] at h; simp at h
  | some r =>
      rw [hr] at h
      simp only [Option.map, Option.some.injEq] at h
      have hm := runVM_scopes _ _ _ _ hr (by simp [initVState, SymbolTable.new])
      rw [← h]
      refine ⟨hm.1.trans (by rfl), ?_⟩
      rw [SymbolTable.current_level, hm.1]
      rfl

theorem claim_C10_balanced_scopes_witness :
    initVState.table.scopes.length = 1 ∧ initVState.table.current_level = 0 :=
  claim_C10_balanced_scopes 5 (asaNode.mk "Programa" "root" [] []) initVState rfl

/-- C9: `SymbolTable.declare` is atomic on failure.  When the name already
exists in the innermost scope it returns the duplicate message and the table
completely unchanged; otherwise it appends exactly one entry — carrying the
current depth as its `scope_level` — to the innermost scope and changes
nothing else (all outer scopes are preserved verbatim). -/
theorem claim_C9_declare_atomic (t : SymbolTable) (name typ : String)
    (node : Option asaNode) (line : Option Nat) (h : t.scopes ≠ []) :
    (scopeHas (t.scopes.getLast h) name = true →
        t.declare name typ node line = (t, some (dupDeclMsg name t.current_level))) ∧
    (scopeHas (t.scopes.getLast h) name = false →
        t.declare name typ node line =
          (⟨t.scopes.dropLast ++ [(t.scopes.getLast h) ++
              [(name, ⟨name, typ, node, line, t.current_level⟩)]]⟩, none)) := by
  have hg : t.scopes.getLast? = some (t.scopes.getLast h) :=
    List.getLast?_eq_getLast t.scopes h
  constructor
  · intro hd
    simp only [SymbolTable.declare, hg, hd, if_true]
  · intro hd
    simp only [SymbolTable.declare, hg, hd, if_false]
    simp [hd]

theorem claim_C9_declare_atomic_witness :
    wTable.declare "a" "t" none none = (wTable, some (dupDeclMsg "a" 0)) ∧
    wTable.declare "b" "t" none none =
      (⟨[[("a", ⟨"a", "entity:Deportista", none, some 1, 0⟩),
          ("b", ⟨"b", "t", none, none, 0⟩)]]⟩, none) := by
  constructor
  · exact (claim_C9_declare_atomic wTable "a" "t" none none
      (by simp [wTable])).1 (by decide)
  · exact (claim_C9_declare_atomic wTable "b" "t" none none
      (by simp [wTable])).2 (by decide)

/-- C4: duplicate detection.  `SymbolTable.declare` returns an error value
(and, being total, never raises) exactly when the name already exists in the
innermost scope; a program declaring the same athlete name twice in the same
scope produces exactly one duplicate-declaration diagnostic, carrying the
second declaration\x27s line; redeclaring the name inside a nested
(`Condicional`) scope produces no diagnostic at all. -/
theorem claim_C4_duplicate_detection :
    (∀ (t : SymbolTable) (name typ : String) (node : Option asaNode)
        (line : Option Nat) (h : t.scopes ≠ []),
      (t.declare name typ node line).2.isSome = true ↔
        scopeHas (t.scopes.getLast h) name = true) ∧
    (∀ name : String,
      (Verifier.run 10 (progDupSame name)).map (fun v => v.errors) =
        some [⟨semFormat (dupDeclMsg name 0), some 2, 0, "ERROR"⟩]) ∧
    (∀ name : String,
      (Verifier.run 10 (progDupNested name)).map (fun v => v.errors) = some []) := by
  refine ⟨?_, dup_same_run, nested_rfl⟩
  intro t name typ node line h
  rw [declare_split t name typ node line h]
  cases hs : scopeHas (t.scopes.getLast h) name with
  | true => simp [hs]
  | false => simp [hs]

theorem claim_C4_duplicate_detection_witness :
    ((wTable.declare "a" "t" none none).2.isSome = true ↔
      scopeHas (wTable.scopes.getLast (by simp [wTable])) "a" = true) ∧
    (Verifier.run 10 (progDupSame "x")).map (fun v => v.errors) =
      some [⟨semFormat (dupDeclMsg "x" 0), some 2, 0, "ERROR"⟩] ∧
    (Verifier.run 10 (progDupNested "x")).map (fun v => v.errors) = some [] :=
  ⟨claim_C4_duplicate_detection.1 wTable "a" "t" none none (by simp [wTable]),
   claim_C4_duplicate_detection.2.1 "x",
   claim_C4_duplicate_detection.2.2 "x"⟩

/-- Running the tail of `_visit_binaryop` on any state: exactly one
`string + int` diagnostic when (and only when) the operator is `+` and the
inferred operand types mix `string` and `int`; the decoration carries the
int/string/unknown result type of the source\x27s if-chain. -/
theorem binaryopTail_run (node left right : asaNode) (path : List Nat) (s : VState) :
    runVM (binaryopTail node left right path) s =
      some ((), { s with
        errors := s.errors ++
          (if node.contenido = "+" ∧
              ((inferType s (path ++ [0]) left = "string" ∧
                inferType s (path ++ [1]) right = "int")
               ∨ (inferType s (path ++ [0]) left = "int" ∧
                  inferType s (path ++ [1]) right = "string"))
           then [⟨semFormat "No se puede sumar texto con número",
                  errLine (some node), 0, "ERROR"⟩]
           else [])
        decorations := decUpdate s.decorations path
          [("tipo", .ds (if inferType s (path ++ [0]) left = "int" ∧
                inferType s (path ++ [1]) right = "int" ∧
                node.contenido ∈ ["+", "-", "*", "/", "%"] then "int"
              else if inferType s (path ++ [0]) left = "string" ∧
                inferType s (path ++ [1]) right = "string" ∧
                node.contenido = "+" then "string"
              else "unknown")),
           ("op", .ds node.contenido),
           ("left", .ds (inferType s (path ++ [0]) left)),
           ("right", .ds (inferType s (path ++ [1]) right))] }) := by
  by_cases hc : node.contenido = "+" ∧
      ((inferType s (path ++ [0]) left = "string" ∧
        inferType s (path ++ [1]) right = "int")
       ∨ (inferType s (path ++ [0]) left = "int" ∧
          inferType s (path ++ [1]) right = "string"))
  · simp [binaryopTail, vm_bind_def, vm_pure_def, runVM_bind, runVM_vact, runVM_pure,
      runVAct, hc, add_error]
  · simp [binaryopTail, vm_bind_def, vm_pure_def, runVM_bind, runVM_vact, runVM_pure,
      runVAct, hc, add_error]

/-- C6: typing of `BinaryOp`.  Whenever both operand visits complete, the
visit of the whole node appends exactly one "[SEM] No se puede sumar texto
con número" diagnostic iff the operator is `+` and the operands\x27 inferred
types mix `string` and `int` (in either order), and decorates the node with
result type `int` for an arithmetic operator on two ints, `string` only for
`+` on two strings, and `unknown` — with no diagnostic beyond the mixed-`+`
case — for every other combination. -/
theorem claim_C6_binaryop_typing (fuel : Nat) (op : String)
    (attrs : List (String × AttrVal)) (l r : asaNode) (rest : List asaNode)
    (parent : Option asaNode) (idx : Nat) (path : List Nat) (s s1 s2 : VState)
    (h1 : runVM (visitN fuel l none 0 (path ++ [0])) s = some ((), s1))
    (h2 : runVM (visitN fuel r none 0 (path ++ [1])) s1 = some ((), s2)) :
    runVM (visitN (fuel + 1) (asaNode.mk "BinaryOp" op attrs (l :: r :: rest))
        parent idx path) s =
      some ((), { s2 with
        errors := s2.errors ++
          (if op = "+" ∧
              ((inferType s2 (path ++ [0]) l = "string" ∧
                inferType s2 (path ++ [1]) r = "int")
               ∨ (inferType s2 (path ++ [0]) l = "int" ∧
                  inferType s2 (path ++ [1]) r = "string"))
           then [⟨"[SEM] No se puede sumar texto con número",
                  errLine (some (asaNode.mk "BinaryOp" op attrs (l :: r :: rest))),
                  0, "ERROR"⟩]
           else [])
        decorations := decUpdate s2.decorations path
          [("tipo", .ds (if inferType s2 (path ++ [0]) l = "int" ∧
                inferType s2 (path ++ [1]) r = "int" ∧
                op ∈ ["+", "-", "*", "/", "%"] then "int"
              else if inferType s2 (path ++ [0]) l = "string" ∧
                inferType s2 (path ++ [1]) r = "string" ∧
                op = "+" then "string"
              else "unknown")),
           ("op", .ds op),
           ("left", .ds (inferType s2 (path ++ [0]) l)),
           ("right", .ds (inferType s2 (path ++ [1]) r))] }) := by
  show runVM (VM.bindM (visitN fuel l none 0 (path ++ [0]))
      (fun _ => VM.bindM (visitN fuel r none 0 (path ++ [1]))
        (fun _ => binaryopTail (asaNode.mk "BinaryOp" op attrs (l :: r :: rest))
          l r path))) s = _
  rw [runVM_bind, h1]
  show runVM (VM.bindM (visitN fuel r none 0 (path ++ [1]))
      (fun _ => binaryopTail (asaNode.mk "BinaryOp" op attrs (l :: r :: rest))
        l r path)) s1 = _
  rw [runVM_bind, h2]
  show runVM (binaryopTail (asaNode.mk "BinaryOp" op attrs (l :: r :: rest)) l r path) s2 = _
  rw [binaryopTail_run]
  rfl

theorem claim_C6_binaryop_typing_witness :
    runVM (visitN 2 (asaNode.mk "BinaryOp" "+" [] [bopL, bopR]) none 0 []) bopInit =
      some ((), ⟨⟨[[("sv", bopEntry)]]⟩,
        [⟨"[SEM] No se puede sumar texto con número", some 0, 0, "ERROR"⟩],
        [([0], [("tipo", .ds "string"), ("ref", .dref (some bopEntry.to_dict))]),
         ([1], [("tipo", .ds "int"), ("valor", .ds "5")]),
         ([], [("tipo", .ds "unknown"), ("op", .ds "+"),
               ("left", .ds "string"), ("right", .ds "int")])], []⟩) := by
  have h := claim_C6_binaryop_typing 1 "+" [] bopL bopR [] none 0 [] bopInit
    bopS1 bopS2 rfl rfl
  exact h

end Olympiac
